import Mathlib

/-!
# Notification Prioritization Core — shallow embedding

A shallow embedding, in Lean 4, of the decision engine of the
`cyepro-notification-engine` repository:

* `src/engine/classifier.js`      — nine-stage pipeline (`evaluate`)
* `src/engine/deduplicator.js`    — exact SHA-256 + near-dup SimHash detection
* `src/engine/fatigueGuard.js`    — sliding-window fatigue counters
* `src/engine/scorer.js`          — composite base score
* `src/engine/conflictResolver.js`— urgency-vs-fatigue arbitration
* `src/services/ruleService.js`   — rule condition matching

Modelling conventions:

* JavaScript numbers that the code keeps integral (scores, epoch
  milliseconds) are `Int`/`Nat`; the two genuinely fractional quantities
  (`count / cap`, `Math.random()`-based delays) are `ℚ`.  At every
  comparison the code performs, the JS double arithmetic is exact, so the
  rational model agrees with the float semantics.
* JS strings are Lean `String`s; `toLowerCase` is modelled on the ASCII
  fragment, `\s` and `\w` of the regexes by explicit character predicates.
* The Redis store is modelled as a state record (`Store`) threaded through
  the pipeline, with per-key TTL bookkeeping; wall-clock reads
  (`Date.now()`, `getHours()`, `Math.random()`, uuid draws) come from an
  environment record (`Env`).
* A rejected awaited promise inside the pipeline (the situation the
  classifier's failsafe envelope exists for) is modelled by an optional
  injected fault per await site (`Env.inject`); with no injected fault the
  model is the ordinary fault-free semantics.
-/

namespace NotifEngine

attribute [local semireducible] Rat.mul Rat.add Rat.sub Rat.inv

/-! ## JavaScript string primitives -/

/-- ASCII lowercasing: the fragment of JS `String.prototype.toLowerCase`
exercised by this code base. -/
def jsToLower (c : Char) : Char :=
  if 'A' ≤ c ∧ c ≤ 'Z' then Char.ofNat (c.toNat + 32) else c

/-- The characters matched by the JS regex class `\s`. -/
def jsWsChars : List Char :=
  [' ', '\t', '\n', '\r', Char.ofNat 0x0b, Char.ofNat 0x0c, Char.ofNat 0xa0,
   Char.ofNat 0x1680, Char.ofNat 0x2000, Char.ofNat 0x2001, Char.ofNat 0x2002,
   Char.ofNat 0x2003, Char.ofNat 0x2004, Char.ofNat 0x2005, Char.ofNat 0x2006,
   Char.ofNat 0x2007, Char.ofNat 0x2008, Char.ofNat 0x2009, Char.ofNat 0x200a,
   Char.ofNat 0x2028, Char.ofNat 0x2029, Char.ofNat 0x202f, Char.ofNat 0x205f,
   Char.ofNat 0x3000, Char.ofNat 0xfeff]

/-- Whitespace in the sense of the JS regex class `\s`. -/
def isJsWs (c : Char) : Bool := jsWsChars.contains c

/-- The characters matched by the JS regex class `\w` (so `\W` is its
complement). -/
def isWordChar (c : Char) : Bool :=
  ('a' ≤ c && c ≤ 'z') || ('A' ≤ c && c ≤ 'Z') || ('0' ≤ c && c ≤ '9') || c = '_'

/-- `dropWhile` never lengthens a list (termination helper). -/
theorem lengthDropWhileLe {α : Type} (p : α → Bool) :
    ∀ l : List α, (l.dropWhile p).length ≤ l.length
  | [] => le_refl _
  | a :: l => by
    rw [List.dropWhile_cons]
    split
    · exact le_trans (lengthDropWhileLe p l) (Nat.le_succ _)
    · exact le_refl _

/-- `replace(/\s+/g, ' ')`: every maximal whitespace run becomes one space. -/
def collapseWs : List Char → List Char
  | [] => []
  | c :: cs =>
    if isJsWs c then ' ' :: collapseWs (cs.dropWhile isJsWs)
    else c :: collapseWs cs
termination_by l => l.length
decreasing_by
  · exact Nat.lt_succ_of_le (lengthDropWhileLe isJsWs cs)
  · exact Nat.lt_succ_self _

/-- Drop leading JS whitespace. -/
def ltrimWs (l : List Char) : List Char := l.dropWhile isJsWs

/-- Drop trailing JS whitespace. -/
def rtrimWs (l : List Char) : List Char := (l.reverse.dropWhile isJsWs).reverse

/-- JS `String.prototype.trim`. -/
def trimWs (l : List Char) : List Char := rtrimWs (ltrimWs l)

/-- The message normalization of `buildFingerprint`:
`msg.toLowerCase().replace(/\s+/g, ' ').trim()`. -/
def normalizeMsg (s : String) : String := ⟨trimWs (collapseWs (s.data.map jsToLower))⟩

/-- The maximal whitespace-free words of a character list, in order.  Two
messages "differing only in runs of whitespace" have the same `wsTokens`. -/
def wsTokens : List Char → List (List Char)
  | [] => []
  | c :: cs =>
    if isJsWs c then wsTokens (cs.dropWhile isJsWs)
    else (c :: cs.takeWhile (fun d => !isJsWs d)) :: wsTokens (cs.dropWhile (fun d => !isJsWs d))
termination_by l => l.length
decreasing_by
  · exact Nat.lt_succ_of_le (lengthDropWhileLe isJsWs cs)
  · exact Nat.lt_succ_of_le (lengthDropWhileLe _ cs)

/-- The maximal `\w`-runs of a character list: the non-empty pieces of a JS
`split(/\W+/)`. -/
def wordRuns : List Char → List (List Char)
  | [] => []
  | c :: cs =>
    if isWordChar c then
      (c :: cs.takeWhile (fun d => isWordChar d)) :: wordRuns (cs.dropWhile (fun d => isWordChar d))
    else wordRuns (cs.dropWhile (fun d => !isWordChar d))
termination_by l => l.length
decreasing_by
  · exact Nat.lt_succ_of_le (lengthDropWhileLe _ cs)
  · exact Nat.lt_succ_of_le (lengthDropWhileLe _ cs)

/-! ## UTF-8 (Node hashes strings through their UTF-8 bytes) -/

/-- UTF-8 encoding of one code point. -/
def utf8Bytes (c : Char) : List Nat :=
  let n := c.toNat
  if n < 0x80 then [n]
  else if n < 0x800 then [0xc0 ||| (n >>> 6), 0x80 ||| (n &&& 0x3f)]
  else if n < 0x10000 then
    [0xe0 ||| (n >>> 12), 0x80 ||| ((n >>> 6) &&& 0x3f), 0x80 ||| (n &&& 0x3f)]
  else
    [0xf0 ||| (n >>> 18), 0x80 ||| ((n >>> 12) &&& 0x3f),
     0x80 ||| ((n >>> 6) &&& 0x3f), 0x80 ||| (n &&& 0x3f)]

/-- UTF-8 bytes of a string. -/
def strUtf8 (s : String) : List Nat := (s.data.map utf8Bytes).flatten

/-! ## SHA-256 (the `crypto.createHash('sha256')` digest) -/

/-- `2^32`, the modulus of all 32-bit word arithmetic below. -/
def M32 : Nat := 4294967296

/-- Right rotation of a 32-bit word. -/
def rotr32 (n x : Nat) : Nat := ((x >>> n) ||| (x <<< (32 - n))) % M32

/-- Bitwise complement within 32 bits. -/
def not32 (x : Nat) : Nat := 4294967295 ^^^ x

/-- Eight 32-bit words of hash state. -/
structure Hash8 where
  a : Nat
  b : Nat
  c : Nat
  d : Nat
  e : Nat
  f : Nat
  g : Nat
  h : Nat

/-- SHA-256 round constants. -/
def sha256K : List Nat :=
  [1116352408, 1899447441, 3049323471, 3921009573, 961987163, 1508970993,
   2453635748, 2870763221, 3624381080, 310598401, 607225278, 1426881987,
   1925078388, 2162078206, 2614888103, 3248222580, 3835390401, 4022224774,
   264347078, 604807628, 770255983, 1249150122, 1555081692, 1996064986,
   2554220882, 2821834349, 2952996808, 3210313671, 3336571891, 3584528711,
   113926993, 338241895, 666307205, 773529912, 1294757372, 1396182291,
   1695183700, 1986661051, 2177026350, 2456956037, 2730485921, 2820302411,
   3259730800, 3345764771, 3516065817, 3600352804, 4094571909, 275423344,
   430227734, 506948616, 659060556, 883997877, 958139571, 1322822218,
   1537002063, 1747873779, 1955562222, 2024104815, 2227730452, 2361852424,
   2428436474, 2756734187, 3204031479, 3329325298]

/-- SHA-256 initial hash state. -/
def sha256Init : Hash8 :=
  ⟨1779033703, 3144134277, 1013904242, 2773480762,
   1359893119, 2600822924, 528734635, 1541459225⟩

/-- Big-endian byte rendering of a number, `k` bytes wide. -/
def beBytes (k n : Nat) : List Nat :=
  (List.range k).map (fun i => (n >>> (8 * (k - 1 - i))) &&& 0xff)

/-- SHA-256 message padding: `0x80`, zeros to 56 mod 64, 8-byte big-endian
bit length. -/
def sha256Pad (msg : List Nat) : List Nat :=
  let len := msg.length
  let padZeros := (64 + 56 - (len + 1) % 64) % 64
  msg ++ [0x80] ++ List.replicate padZeros 0 ++ beBytes 8 (8 * len)

/-- Extend the 16 chunk words to the 64-entry message schedule. -/
def sha256Extend (w : List Nat) : List Nat :=
  (List.range 48).foldl
    (fun ws _ =>
      let n := ws.length
      let w15 := ws.getD (n - 15) 0
      let w2 := ws.getD (n - 2) 0
      let s0 := (rotr32 7 w15) ^^^ (rotr32 18 w15) ^^^ (w15 >>> 3)
      let s1 := (rotr32 17 w2) ^^^ (rotr32 19 w2) ^^^ (w2 >>> 10)
      ws ++ [(ws.getD (n - 16) 0 + s0 + ws.getD (n - 7) 0 + s1) % M32])
    w

/-- One SHA-256 compression round; `kw` is `(K[i] + w[i]) mod 2^32`. -/
def sha256Round (st : Hash8) (kw : Nat) : Hash8 :=
  let S1 := (rotr32 6 st.e) ^^^ (rotr32 11 st.e) ^^^ (rotr32 25 st.e)
  let ch := (st.e &&& st.f) ^^^ (not32 st.e &&& st.g)
  let temp1 := (st.h + S1 + ch + kw) % M32
  let S0 := (rotr32 2 st.a) ^^^ (rotr32 13 st.a) ^^^ (rotr32 22 st.a)
  let maj := (st.a &&& st.b) ^^^ (st.a &&& st.c) ^^^ (st.b &&& st.c)
  let temp2 := (S0 + maj) % M32
  ⟨(temp1 + temp2) % M32, st.a, st.b, st.c, (st.d + temp1) % M32, st.e, st.f, st.g⟩

/-- Process one 64-byte chunk. -/
def sha256Chunk (h : Hash8) (chunk : List Nat) : Hash8 :=
  let w0 := (List.range 16).map (fun i =>
    (chunk.getD (4 * i) 0) <<< 24 ||| (chunk.getD (4 * i + 1) 0) <<< 16 |||
    (chunk.getD (4 * i + 2) 0) <<< 8 ||| chunk.getD (4 * i + 3) 0)
  let w := sha256Extend w0
  let st := (List.zip sha256K w).foldl (fun s p => sha256Round s ((p.1 + p.2) % M32)) h
  ⟨(h.a + st.a) % M32, (h.b + st.b) % M32, (h.c + st.c) % M32, (h.d + st.d) % M32,
   (h.e + st.e) % M32, (h.f + st.f) % M32, (h.g + st.g) % M32, (h.h + st.h) % M32⟩

/-- Split a byte list into 64-byte chunks. -/
def chunks64 (l : List Nat) : List (List Nat) :=
  if l.isEmpty then [] else l.take 64 :: chunks64 (l.drop 64)
termination_by l.length
decreasing_by
  have hne : l ≠ [] := by
    intro h
    simp [h] at *
  have : 0 < l.length := List.length_pos.mpr hne
  simp only [List.length_drop]
  omega

/-- SHA-256 of a byte list, as eight 32-bit words. -/
def sha256Words (msg : List Nat) : Hash8 :=
  (chunks64 (sha256Pad msg)).foldl sha256Chunk sha256Init

/-- The sixteen lowercase hexadecimal digits. -/
def hexDigits : List Char :=
  "0123456789abcdef".data

/-- Hex digit for a nibble. -/
def hexChar (n : Nat) : Char := hexDigits.getD n '0'

/-- Lowercase hex rendering of a 32-bit word, eight characters. -/
def toHex8 (w : Nat) : List Char :=
  (List.range 8).map (fun i => hexChar ((w >>> (4 * (7 - i))) &&& 15))

/-- The words of a hash state, in output order. -/
def hash8Words (h : Hash8) : List Nat := [h.a, h.b, h.c, h.d, h.e, h.f, h.g, h.h]

/-- `crypto.createHash('sha256').update(·).digest('hex')` on UTF-8 bytes. -/
def sha256Hex (msg : List Nat) : String :=
  ⟨((hash8Words (sha256Words msg)).map toHex8).flatten⟩

/-! ## MD5 (the per-token hash inside `computeSimHash`) -/

/-- Left rotation of a 32-bit word. -/
def rotl32 (n x : Nat) : Nat := ((x <<< n) ||| (x >>> (32 - n))) % M32

/-- MD5 per-operation shift amounts. -/
def md5S : List Nat :=
  [7, 12, 17, 22, 7, 12, 17, 22, 7, 12, 17, 22, 7, 12, 17, 22,
   5, 9, 14, 20, 5, 9, 14, 20, 5, 9, 14, 20, 5, 9, 14, 20,
   4, 11, 16, 23, 4, 11, 16, 23, 4, 11, 16, 23, 4, 11, 16, 23,
   6, 10, 15, 21, 6, 10, 15, 21, 6, 10, 15, 21, 6, 10, 15, 21]

/-- MD5 per-operation constants. -/
def md5K : List Nat :=
  [0xd76aa478, 0xe8c7b756, 0x242070db, 0xc1bdceee, 0xf57c0faf, 0x4787c62a, 0xa8304613, 0xfd469501,
   0x698098d8, 0x8b44f7af, 0xffff5bb1, 0x895cd7be, 0x6b901122, 0xfd987193, 0xa679438e, 0x49b40821,
   0xf61e2562, 0xc040b340, 0x265e5a51, 0xe9b6c7aa, 0xd62f105d, 0x02441453, 0xd8a1e681, 0xe7d3fbc8,
   0x21e1cde6, 0xc33707d6, 0xf4d50d87, 0x455a14ed, 0xa9e3e905, 0xfcefa3f8, 0x676f02d9, 0x8d2a4c8a,
   0xfffa3942, 0x8771f681, 0x6d9d6122, 0xfde5380c, 0xa4beea44, 0x4bdecfa9, 0xf6bb4b60, 0xbebfbc70,
   0x289b7ec6, 0xeaa127fa, 0xd4ef3085, 0x04881d05, 0xd9d4d039, 0xe6db99e5, 0x1fa27cf8, 0xc4ac5665,
   0xf4292244, 0x432aff97, 0xab9423a7, 0xfc93a039, 0x655b59c3, 0x8f0ccc92, 0xffeff47d, 0x85845dd1,
   0x6fa87e4f, 0xfe2ce6e0, 0xa3014314, 0x4e0811a1, 0xf7537e82, 0xbd3af235, 0x2ad7d2bb, 0xeb86d391]

/-- Four 32-bit words of MD5 state. -/
structure MD5State where
  a : Nat
  b : Nat
  c : Nat
  d : Nat

/-- MD5 initial state. -/
def md5Init : MD5State := ⟨0x67452301, 0xefcdab89, 0x98badcfe, 0x10325476⟩

/-- Little-endian byte rendering of a number, `k` bytes wide. -/
def leBytes (k n : Nat) : List Nat :=
  (List.range k).map (fun i => (n >>> (8 * i)) &&& 0xff)

/-- MD5 message padding: `0x80`, zeros to 56 mod 64, 8-byte little-endian
bit length. -/
def md5Pad (msg : List Nat) : List Nat :=
  let len := msg.length
  let padZeros := (64 + 56 - (len + 1) % 64) % 64
  msg ++ [0x80] ++ List.replicate padZeros 0 ++ leBytes 8 (8 * len)

/-- One MD5 operation (`i` counts 0–63); `m` is the 16-word chunk. -/
def md5Op (m : List Nat) (st : MD5State) (i : Nat) : MD5State :=
  let fg :=
    if i < 16 then ((st.b &&& st.c) ||| (not32 st.b &&& st.d), i)
    else if i < 32 then ((st.d &&& st.b) ||| (not32 st.d &&& st.c), (5 * i + 1) % 16)
    else if i < 48 then (st.b ^^^ st.c ^^^ st.d, (3 * i + 5) % 16)
    else (st.c ^^^ (st.b ||| not32 st.d), (7 * i) % 16)
  let tmp := (st.a + fg.1 + md5K.getD i 0 + m.getD fg.2 0) % M32
  ⟨st.d, (st.b + rotl32 (md5S.getD i 0) tmp) % M32, st.b, st.c⟩

/-- Process one 64-byte chunk of MD5 input. -/
def md5Chunk (st : MD5State) (chunk : List Nat) : MD5State :=
  let m := (List.range 16).map (fun i =>
    chunk.getD (4 * i) 0 ||| (chunk.getD (4 * i + 1) 0) <<< 8 |||
    (chunk.getD (4 * i + 2) 0) <<< 16 ||| (chunk.getD (4 * i + 3) 0) <<< 24)
  let r := (List.range 64).foldl (md5Op m) st
  ⟨(st.a + r.a) % M32, (st.b + r.b) % M32, (st.c + r.c) % M32, (st.d + r.d) % M32⟩

/-- The 16 digest bytes of MD5. -/
def md5Digest (msg : List Nat) : List Nat :=
  let f := (chunks64 (md5Pad msg)).foldl md5Chunk md5Init
  leBytes 4 f.a ++ leBytes 4 f.b ++ leBytes 4 f.c ++ leBytes 4 f.d

/-- `BigInt('0x' + md5hex.slice(0, 16))`: the first eight MD5 digest bytes
read as a big-endian 64-bit number. -/
def md5First64 (msg : List Nat) : Nat :=
  ((md5Digest msg).take 8).foldl (fun acc b => acc * 256 + b) 0

/-! ## SimHash and Hamming distance (`deduplicator.js`) -/

/-- Token-level SimHash: 64-bit locality-sensitive hash of the message's
word tokens (`computeSimHash` in `deduplicator.js`). -/
def computeSimHash (text : String) : Nat :=
  let toks := (wordRuns (text.data.map jsToLower)).filter (fun t => t.length > 2)
  let hs := toks.map (fun t => md5First64 ((t.map utf8Bytes).flatten))
  (List.range 64).foldl
    (fun acc i =>
      let vi : Int := hs.foldl (fun a h => a + (if (h >>> i) &&& 1 = 1 then 1 else -1)) 0
      if vi > 0 then acc ||| (1 <<< i) else acc)
    0

/-- Count set bits (the bit loop of `hammingDistance`). -/
def countBits (n : Nat) : Nat :=
  if n = 0 then 0 else (n &&& 1) + countBits (n >>> 1)
termination_by n
decreasing_by
  rename_i h
  simp only [Nat.shiftRight_succ, Nat.shiftRight_zero]
  omega

/-- Number of differing bits between two hashes (`hammingDistance`). -/
def hammingDistance (a b : Nat) : Nat := countBits (a ^^^ b)

/-! ## Data model -/

/-- A notification event, after the route handler's defaulting
(`routes.js`): `message`/`source`/`priority_hint`/`channel` are plain
strings, `dedupe_key` is `null` or a string, `timestamp` and `expires_at`
are modelled as parsed epoch-millisecond instants. -/
structure Event where
  user_id : String
  event_type : String
  message : String
  source : String
  priority_hint : String
  channel : String
  timestamp : Option Int
  dedupe_key : Option String
  expires_at : Option Int

/-- JS truthiness of a nullable string (`null` and `''` are falsy). -/
def jsTruthy : Option String → Bool
  | none => false
  | some s => !s.isEmpty

/-! ## The key-value store (the Redis adapter, `redisService.js`)

Plain keys carry `(value, expiry-instant)`; sorted-set keys carry
`(score, member)` entries plus their own expiry.  All operations take the
current instant `now`; an expired key behaves as absent. -/

/-- One sorted-set entry: millisecond score and member string. -/
structure ZEntry where
  score : Int
  member : String
deriving DecidableEq

/-- The modelled Redis state. -/
structure Store where
  kv : String → Option (String × Int)
  zs : String → List ZEntry
  zexp : String → Option Int

/-- The empty store. -/
def Store.empty : Store := ⟨fun _ => none, fun _ => [], fun _ => none⟩

/-- `GET k` (absent once expired). -/
def storeGet (st : Store) (now : Int) (k : String) : Option String :=
  match st.kv k with
  | some (v, e) => if now < e then some v else none
  | none => none

/-- `SET k v EX ttl`. -/
def storeSet (st : Store) (now : Int) (k v : String) (ttlSec : Int) : Store :=
  { st with kv := fun q => if q = k then some (v, now + ttlSec * 1000) else st.kv q }

/-- The live entries of a sorted set (empty once the key expired). -/
def zsetLive (st : Store) (now : Int) (k : String) : List ZEntry :=
  match st.zexp k with
  | some e => if now < e then st.zs k else []
  | none => st.zs k

/-- `ZADD k score member`: update the member's score or append it; writing
to an expired key recreates it fresh. -/
def zaddSt (st : Store) (now : Int) (k : String) (score : Int) (member : String) : Store :=
  let cur := zsetLive st now k
  let upd :=
    if cur.any (fun e => e.member = member) then
      cur.map (fun e => if e.member = member then ⟨score, member⟩ else e)
    else cur ++ [⟨score, member⟩]
  { st with
    zs := fun q => if q = k then upd else st.zs q,
    zexp := fun q =>
      if q = k then
        match st.zexp k with
        | some e => if now < e then some e else none
        | none => none
      else st.zexp q }

/-- `EXPIRE k ttl` on a sorted-set key. -/
def zexpireSt (st : Store) (now : Int) (k : String) (ttlSec : Int) : Store :=
  { st with zexp := fun q => if q = k then some (now + ttlSec * 1000) else st.zexp q }

/-- `ZREMRANGEBYSCORE k -inf cutoff` (inclusive upper bound). -/
def zremUpTo (st : Store) (now : Int) (k : String) (cutoff : Int) : Store :=
  { st with zs := fun q =>
      if q = k then (zsetLive st now k).filter (fun e => !(e.score ≤ cutoff)) else st.zs q }

/-- `ZCOUNT k lo hi` (both bounds inclusive). -/
def zcountSt (st : Store) (now : Int) (k : String) (lo hi : Int) : Nat :=
  ((zsetLive st now k).filter (fun e => lo ≤ e.score && e.score ≤ hi)).length

/-- Stable insertion of one element under a comparator. -/
def insertSorted {α : Type} (le : α → α → Bool) (x : α) : List α → List α
  | [] => [x]
  | y :: ys => if le x y then x :: y :: ys else y :: insertSorted le x ys

/-- A stable sort under a comparator (insertion sort), modelling the
stable `Array.prototype.sort` of V8 and Redis's score ordering. -/
def stableSort {α : Type} (le : α → α → Bool) : List α → List α
  | [] => []
  | x :: xs => insertSorted le x (stableSort le xs)

/-- `ZRANGE k 0 -1`: all members, ordered by score (stable). -/
def zrangeAll (st : Store) (now : Int) (k : String) : List String :=
  (stableSort (fun x y => x.score ≤ y.score) (zsetLive st now k)).map (fun e => e.member)

/-! ## Deduplicator (`deduplicator.js`) -/

/-- TTL for transactional fingerprints, seconds. -/
def TTL_TRANSACTIONAL : Int := 600

/-- TTL for promotional fingerprints, seconds. -/
def TTL_PROMO : Int := 86400

/-- SimHash sliding window, seconds. -/
def NEAR_DUP_WINDOW : Int := 600

/-- Maximum bit difference for a near-duplicate. -/
def HAMMING_THRESHOLD : Nat := 5

/-- `isPromo` of `deduplicator.js`. -/
def isPromo (t : String) : Bool := t = "promotion" || t = "low_value_promo"

/-- SHA-256 fingerprint over `user_id|event_type|normalized_message|source`
(`buildFingerprint`, identical in `deduplicator.js` and the fingerprint
utility module). -/
def buildFingerprint (event : Event) : String :=
  let msg := normalizeMsg event.message
  let raw := event.user_id ++ "|" ++ event.event_type ++ "|" ++ msg ++ "|" ++ event.source
  sha256Hex (strUtf8 raw)

/-- Per-read fail-open flags: a `true` flag models the corresponding Redis
read throwing, which the source catches and treats as absence. -/
structure DedupFlags where
  keyFault : Bool := false
  fpFault : Bool := false
  nearFault : Bool := false

/-- A Redis `GET` through the fail-open `redisGet` helper. -/
def redisGetF (fault : Bool) (st : Store) (now : Int) (k : String) : Option String :=
  if fault then none else storeGet st now k

/-- Result of `checkNearDuplicate`. -/
structure NearRes where
  found : Bool
  distance : Nat

/-- The first stored SimHash within the Hamming threshold, if any
(the loop body of `checkNearDuplicate`). -/
def findNear (current : Nat) : List String → NearRes
  | [] => ⟨false, 0⟩
  | s :: rest =>
    let dist := hammingDistance current ((s.toNat?).getD 0)
    if dist < HAMMING_THRESHOLD then ⟨true, dist⟩ else findNear current rest

/-- `checkNearDuplicate`: skip short messages, else compare the current
SimHash against every stored one. -/
def checkNearDuplicate (fault : Bool) (st : Store) (now : Int) (event : Event) : NearRes :=
  if event.message.length < 10 then ⟨false, 0⟩
  else if fault then ⟨false, 0⟩
  else
    let simKey := "sim:" ++ event.user_id ++ ":" ++ event.event_type
    findNear (computeSimHash event.message) (zrangeAll st now simKey)

/-- Result of `checkDuplicate`. -/
structure DupResult where
  isDuplicate : Bool
  type : Option String
  detail : Option String

/-- `checkDuplicate`: dedupe key probe, then exact fingerprint probe, then
SimHash near-duplicate scan. -/
def checkDuplicate (fl : DedupFlags) (st : Store) (now : Int) (event : Event) : DupResult :=
  let keyHit : Option String :=
    match event.dedupe_key with
    | some k =>
      if !k.isEmpty && jsTruthy (redisGetF fl.keyFault st now ("dedup:key:" ++ k)) then some k
      else none
    | none => none
  match keyHit with
  | some k => ⟨true, some "EXACT_KEY", some ("dedupe_key=" ++ k)⟩
  | none =>
    let fp := buildFingerprint event
    if jsTruthy (redisGetF fl.fpFault st now ("dedup:fp:" ++ fp)) then
      ⟨true, some "EXACT_FINGERPRINT", some ("sha256=" ++ fp.take 16 ++ "...")⟩
    else
      let near := checkNearDuplicate fl.nearFault st now event
      if near.found then ⟨true, some "NEAR_DUPLICATE", some ("hamming_dist=" ++ toString near.distance)⟩
      else ⟨false, none, none⟩

/-- `storeFingerprint`: write the content fingerprint, the dedupe key if
present, and the SimHash entry (with window expiry and pruning). -/
def storeFingerprint (st : Store) (now : Int) (event : Event) : Store :=
  let ttl := if isPromo event.event_type then TTL_PROMO else TTL_TRANSACTIONAL
  let fp := buildFingerprint event
  let st1 := storeSet st now ("dedup:fp:" ++ fp) "1" ttl
  let st2 :=
    match event.dedupe_key with
    | some k => if k.isEmpty then st1 else storeSet st1 now ("dedup:key:" ++ k) "1" ttl
    | none => st1
  let simhash := computeSimHash event.message
  let simKey := "sim:" ++ event.user_id ++ ":" ++ event.event_type
  let st3 := zaddSt st2 now simKey now (toString simhash)
  let st4 := zexpireSt st3 now simKey NEAR_DUP_WINDOW
  zremUpTo st4 now simKey (now - NEAR_DUP_WINDOW * 1000)

/-! ## Fatigue guard (`fatigueGuard.js`) -/

/-- The three configurable caps. -/
structure Caps where
  total : Nat
  source : Nat
  promo : Nat

/-- The default caps (`MAX_NOTIFS_PER_HOUR = 5` etc.). -/
def defaultCaps : Caps := ⟨5, 2, 1⟩

/-- One hour in seconds. -/
def W1H : Int := 3600

/-- Four hours in seconds. -/
def W4H : Int := 14400

/-- Fatigue read result `{ count, penalty, level }`. -/
structure FatigueInfo where
  count : Nat
  penalty : Nat
  level : String
deriving DecidableEq

/-- The penalty curve and level label of `getFatiguePenalty`, as a function
of the hourly count (the comparisons `count / CAPS.total ≥ 1.0 / 0.8 / 0.5`
are exact in JS doubles for integral counts, so the rational model agrees). -/
def fatigueCurve (capTotal : Nat) (count : Nat) : FatigueInfo :=
  let ratio : ℚ := (count : ℚ) / (capTotal : ℚ)
  let penalty : Nat :=
    if ratio ≥ 1 then 30
    else if ratio ≥ 8 / 10 then 20
    else if ratio ≥ 5 / 10 then 10
    else if count ≥ 2 then 5
    else 0
  let level :=
    if penalty = 0 then "LOW"
    else if penalty ≤ 10 then "MEDIUM"
    else if penalty ≤ 20 then "HIGH"
    else "MAXED"
  ⟨count, penalty, level⟩

/-- `getFatiguePenalty`: count the user's total sliding-window entries and
apply the curve; a Redis read fault fails open to `UNKNOWN`. -/
def getFatiguePenalty (fault : Bool) (caps : Caps) (st : Store) (now : Int)
    (userId _source : String) : FatigueInfo :=
  if fault then ⟨0, 0, "UNKNOWN"⟩
  else fatigueCurve caps.total
    (zcountSt st now ("freq:" ++ userId ++ ":total") (now - W1H * 1000) now)

/-- `incrementCounter`: push `(now, "<now>:<event_type>")` into the total,
per-source and (for promos) promo windows, refresh TTLs, prune old entries. -/
def incrementCounter (st : Store) (now : Int) (event : Event) : Store :=
  let member := toString now ++ ":" ++ event.event_type
  let totalKey := "freq:" ++ event.user_id ++ ":total"
  let st1 := zremUpTo (zexpireSt (zaddSt st now totalKey now member) now totalKey W4H)
    now totalKey (now - W1H * 1000)
  let srcKey := "freq:" ++ event.user_id ++ ":" ++ event.source
  let st2 := zremUpTo (zexpireSt (zaddSt st1 now srcKey now member) now srcKey W4H)
    now srcKey (now - W1H * 1000)
  if event.event_type = "promotion" || event.event_type = "low_value_promo" then
    let promoKey := "freq:" ++ event.user_id ++ ":promo"
    zremUpTo (zexpireSt (zaddSt st2 now promoKey now member) now promoKey W4H)
      now promoKey (now - W4H * 1000)
  else st2

/-! ## Composite scorer (`scorer.js`) -/

/-- `PRIORITY_SCORES` lookup with its `?? 10` default. -/
def priorityScoreOf (p : String) : Int :=
  if p = "CRITICAL" then 40
  else if p = "HIGH" then 25
  else if p = "MEDIUM" then 15
  else if p = "LOW" then 5
  else 10

/-- `EVENT_TYPE_SCORES` lookup with its `?? 5` default. -/
def eventTypeScoreOf (t : String) : Int :=
  if t = "security_alert" then 30
  else if t = "direct_message" then 25
  else if t = "payment_alert" then 28
  else if t = "reminder" then 20
  else if t = "system_alert" then 18
  else if t = "system_update" then 10
  else if t = "promotion" then 5
  else if t = "low_value_promo" then 2
  else if t = "digest" then 3
  else 5

/-- `CHANNEL_SCORES` lookup with its `?? 3` default. -/
def channelScoreOf (c : String) : Int :=
  if c = "sms" then 10
  else if c = "push" then 8
  else if c = "email" then 5
  else if c = "in-app" then 3
  else 3

/-- `freshnessScore`: age thresholds in minutes (exact in JS doubles at
these integral cutoffs, so the rational model agrees). -/
def freshnessScore (now : Int) (ts : Option Int) : Int :=
  match ts with
  | none => 5
  | some t =>
    let ageMin : ℚ := ((now - t : Int) : ℚ) / 60000
    if ageMin < 1 then 10
    else if ageMin < 5 then 8
    else if ageMin < 15 then 5
    else if ageMin < 60 then 2
    else 0

/-- `computeScore`: priority + type + channel + freshness, capped at 75. -/
def computeScore (now : Int) (event : Event) : Int :=
  min 75 (priorityScoreOf event.priority_hint + eventTypeScoreOf event.event_type +
    channelScoreOf event.channel + freshnessScore now event.timestamp)

/-! ## Conflict resolver (`conflictResolver.js`) -/

/-- Result of `resolveConflict`. -/
structure ConflictRes where
  resolved : Bool
  decision : Option String
  reason : String
deriving DecidableEq

/-- The static noisy-source set. -/
def noisySources : List String :=
  ["marketing-svc", "promo-service", "analytics-alerts", "noisy-svc", "bulk-sender"]

/-- `isNoisySource`. -/
def isNoisySource (source : String) : Bool := noisySources.contains source

/-- `resolveConflict`: the four first-match-wins arbitration rules. -/
def resolveConflict (event : Event) (score : Int) (fatigue : FatigueInfo) : ConflictRes :=
  if event.priority_hint = "HIGH" ∧ fatigue.level = "MAXED" then
    let c := fatigue.count
    ⟨true, some "LATER",
      s!"CONFLICT RESOLVED: HIGH priority but user fatigue MAXED ({c}/hr). Deferred 15 min — not silently dropped."⟩
  else if event.priority_hint = "HIGH" ∧ fatigue.level = "HIGH" ∧ isNoisySource event.source = true then
    let s := event.source
    ⟨true, some "LATER",
      s!"CONFLICT RESOLVED: HIGH priority but \"{s}\" is a noisy source and user fatigue is HIGH. Short defer applied."⟩
  else if event.priority_hint = "MEDIUM" ∧ fatigue.level = "MAXED" then
    let c := fatigue.count
    ⟨true, some "NEVER",
      s!"CONFLICT RESOLVED: MEDIUM priority suppressed — user at fatigue cap ({c}/5 per hr). Sending now would worsen alert fatigue."⟩
  else if event.priority_hint = "LOW" ∧ score ≥ 60 ∧ fatigue.level = "MAXED" then
    ⟨true, some "LATER",
      s!"CONFLICT RESOLVED: Score {score} suggests NOW, but LOW priority + MAXED fatigue. Deferred to avoid noise."⟩
  else ⟨false, none, ""⟩

/-! ## Rule matching (`ruleService.js`) -/

/-- A rule condition; absent fields match anything. -/
structure RuleCond where
  event_type : Option String := none
  channel : Option String := none
  source : Option String := none
  priority : Option String := none
deriving DecidableEq

/-- A configured rule (after the loader's `enabled` filter), with the
`|| 0` default already applied to `priority`. -/
structure Rule where
  rule_id : String
  condition : RuleCond := {}
  action : String
  priority : Int := 0
deriving DecidableEq

/-- One field check of `matchesCondition`: absent, empty (JS-falsy) or
`"*"` matches anything. -/
def condFieldMatches (cond : Option String) (value : String) : Bool :=
  match cond with
  | none => true
  | some c => c.isEmpty || c = "*" || c = value

/-- `matchesCondition`: all four condition fields must match. -/
def matchesCondition (event : Event) (cond : RuleCond) : Bool :=
  condFieldMatches cond.event_type event.event_type &&
  condFieldMatches cond.channel event.channel &&
  condFieldMatches cond.source event.source &&
  condFieldMatches cond.priority event.priority_hint

/-- `matchRules`: the matching rules, stably sorted by priority descending. -/
def matchRules (event : Event) (rules : List Rule) : List Rule :=
  stableSort (fun a b => b.priority ≤ a.priority)
    (rules.filter (fun r => matchesCondition event r.condition))

/-! ## The classifier (`classifier.js`) -/

/-- An unexpected rejection of an awaited call, the situation the failsafe
envelope catches. -/
structure Fault where
  msg : String
deriving DecidableEq

/-- The await sites of stages 2–9 at which a call's promise could reject.
`getAiScore` has its own inline catch in the source and so is not a site. -/
inductive Site
  | checkDup
  | rulesLoad
  | storeFp
  | incrCount
  | fatigueRead
deriving DecidableEq

/-- Invocation-trace entries for the two write effects the invariants are
about. -/
inductive Call
  | storeFp
  | incrCount
deriving DecidableEq

/-- Instrumentation: which of the eight return sites of `evaluate`
produced the result. -/
inductive PathTag
  | expired
  | dupSuppressed
  | criticalNow
  | ruleSuppressed
  | dndDefer
  | conflictPath
  | boundaryPath
  | failsafePath
deriving DecidableEq

/-- The per-stage diagnostic strings accumulated in `stages`. -/
structure Stages where
  expiry : Option String := none
  dedup : Option String := none
  rules : Option String := none
  dnd : Option String := none
  scorer : Option String := none
  fatigue : Option String := none
  ai : Option String := none
  conflict : Option String := none
  decision : Option String := none
  failsafe : Bool := false
deriving DecidableEq

/-- The decision envelope returned to the caller.  `schedule_at` instants
are rationals (epoch ms); the source renders them as ISO strings. -/
structure DecisionOut where
  decision : String
  score : Int
  reason : String
  schedule_at : Option ℚ
  audit_id : String
deriving DecidableEq

/-- The audit record assembled by `finalize` and handed to `writeAudit`. -/
structure AuditRecord where
  audit_id : String
  event_id : String
  user_id : String
  event_type : String
  decision : String
  score : Int
  reason : String
  stages : Stages
  rules_matched : List String
  schedule_at : Option ℚ
  created_at : String
deriving DecidableEq

/-- Everything one `evaluate` call produces: the caller's result, the audit
record, the final store, the write-effect trace, and the return-site tag. -/
structure EvalOut where
  res : DecisionOut
  audit : AuditRecord
  store : Store
  calls : List Call
  path : PathTag

/-- The ambient inputs of one `evaluate` call: clocks, random draws, uuid
draws, the cached rules snapshot, the AI call's outcome, and the fault
model. -/
structure Env where
  nowMs : Int
  hour : Nat
  todayAt8 : Int
  uuid8 : String
  uuidFallback : String
  nowIso : String
  rand : ℚ
  rules : List Rule
  aiResult : Except Fault Int
  inject : Site → Option Fault
  dedupFlags : DedupFlags
  fatigueFault : Bool
  caps : Caps

/-- `checkDND` result. -/
structure DndInfo where
  inDND : Bool
  window : String

/-- `checkDND`: the fixed 23:00–08:00 window on the wall-clock hour. -/
def checkDND (env : Env) : DndInfo :=
  ⟨env.hour ≥ 23 || env.hour < 8, "23:00–08:00"⟩

/-- `getNextOpenWindow`: today 08:00, plus a day if the hour is ≥ 8. -/
def getNextOpenWindow (env : Env) : ℚ :=
  if env.hour ≥ 8 then ((env.todayAt8 + 86400000 : Int) : ℚ) else ((env.todayAt8 : Int) : ℚ)

/-- `getShortDefer`: now + 15 minutes. -/
def getShortDefer (env : Env) : ℚ := ((env.nowMs : Int) : ℚ) + 15 * 60 * 1000

/-- The event types that get the long 2–5 h optimal window. -/
def lowPrioWindowTypes : List String := ["promotion", "low_value_promo", "system_update"]

/-- `getOptimalWindow`: now + uniform delay, 2–5 h for low-priority types,
15–45 min otherwise (`env.rand` models the `Math.random()` draw). -/
def getOptimalWindow (env : Env) (eventType : String) : ℚ :=
  let delayMs : ℚ :=
    if lowPrioWindowTypes.contains eventType then (2 + env.rand * 3) * 3600000
    else (15 + env.rand * 30) * 60000
  ((env.nowMs : Int) : ℚ) + delayMs

/-- `finalize`: build the result and the audit record (the audit write and
the deferred-dispatch submission are external appends whose failures the
adapters swallow). -/
def finalize (env : Env) (decision : String) (score : Int) (reason : String)
    (scheduleAt : Option ℚ) (stages : Stages) (ruleMatches : List String)
    (auditId : String) (event : Event) (st : Store) (calls : List Call)
    (path : PathTag) : EvalOut :=
  let eventId := if jsTruthy event.dedupe_key then event.dedupe_key.getD "" else env.uuidFallback
  { res := ⟨decision, score, reason, scheduleAt, auditId⟩
    audit := ⟨auditId, eventId, event.user_id, event.event_type, decision, score, reason,
      stages, ruleMatches, scheduleAt, env.nowIso⟩
    store := st
    calls := calls
    path := path }

/-- Errors of the pipeline body: the fault together with the store and the
write trace at the moment it was raised. -/
abbrev EvalErr := Fault × Store × List Call

/-- Stage 1 predicate: `event.expires_at && new Date(event.expires_at) < new Date()`. -/
def isExpired (env : Env) (event : Event) : Bool :=
  match event.expires_at with
  | some t => decide (t < env.nowMs)
  | none => false

/-- The AI adjustment and its stage annotation (`getAiScore` with the
classifier's inline catch). -/
def aiOutcome (env : Env) : Int × String :=
  match env.aiResult with
  | .ok v => (v, "adjustment=" ++ (if v ≥ 0 then "+" else "") ++ toString v)
  | .error e => (0, "SKIPPED (" ++ e.msg ++ ")")

/-- The stage-9 decision triple: `(decision, schedule_at, reason)` from
the clamped final score. -/
def boundaryTriple (env : Env) (finalScore : Int) (eventType : String) :
    String × Option ℚ × String :=
  if finalScore ≥ 60 then
    ("NOW", none, "Score " ++ toString finalScore ++ " ≥ 60 — dispatching immediately.")
  else if finalScore ≥ 30 then
    ("LATER", some (getOptimalWindow env eventType),
      "Score " ++ toString finalScore ++ " in [30,60) — scheduled for " ++
        toString (getOptimalWindow env eventType) ++ ".")
  else
    ("NEVER", none,
      "Score " ++ toString finalScore ++ " < 30 — low-value notification suppressed.")

/-- Stages 1–9 of `evaluate` (the body of its `try`). -/
def evalBody (env : Env) (st0 : Store) (event : Event) (auditId : String) :
    Except EvalErr EvalOut :=
  let stages0 : Stages := {}
  if isExpired env event then
    .ok (finalize env "NEVER" 0
      "Event expired (expires_at in the past). Delivery has no value."
      none { stages0 with expiry := some "EXPIRED" } [] auditId event st0 [] .expired)
  else
  let stagesA := { stages0 with expiry := some "VALID" }
  match env.inject .checkDup with
  | some f => .error (f, st0, [])
  | none =>
  let dup := checkDuplicate env.dedupFlags st0 env.nowMs event
  let stagesB := { stagesA with dedup := some (if dup.isDuplicate then
    dup.type.getD "null" ++ ": " ++ dup.detail.getD "null" else "PASS") }
  if dup.isDuplicate then
    .ok (finalize env "NEVER" 0
      ("Duplicate suppressed (" ++ dup.type.getD "null" ++ "): " ++ dup.detail.getD "null")
      none stagesB [] auditId event st0 [] .dupSuppressed)
  else
  if event.priority_hint = "CRITICAL" then
    let stagesC := { stagesB with rules := some "CRITICAL_OVERRIDE" }
    match env.inject .storeFp with
    | some f => .error (f, st0, [])
    | none =>
    let st1 := storeFingerprint st0 env.nowMs event
    match env.inject .incrCount with
    | some f => .error (f, st1, [.storeFp])
    | none =>
    let st2 := incrementCounter st1 env.nowMs event
    .ok (finalize env "NOW" 97
      "CRITICAL priority — bypasses all guards and sends immediately."
      none stagesC ["critical-always-now"] auditId event st2 [.storeFp, .incrCount] .criticalNow)
  else
  match env.inject .rulesLoad with
  | some f => .error (f, st0, [])
  | none =>
  let matched := matchRules event env.rules
  let ruleMatches := matched.map (fun r => r.rule_id)
  match matched.find? (fun r => r.action = "SUPPRESS") with
  | some suppressRule =>
    let stagesC := { stagesB with rules := some ("SUPPRESSED by rule: " ++ suppressRule.rule_id) }
    .ok (finalize env "NEVER" 0
      ("Suppressed by operator rule: " ++ suppressRule.rule_id)
      none stagesC ruleMatches auditId event st0 [] .ruleSuppressed)
  | none =>
  let stagesC := { stagesB with rules := some (if ruleMatches.length > 0 then
    "Matched: [" ++ String.intercalate ", " ruleMatches ++ "]" else "No rules matched") }
  let dnd := checkDND env
  let stagesD := { stagesC with dnd := some (if dnd.inDND then
    "IN_DND (" ++ dnd.window ++ ")" else "CLEAR") }
  if dnd.inDND then
    let scheduleAt := getNextOpenWindow env
    match env.inject .storeFp with
    | some f => .error (f, st0, [])
    | none =>
    let st1 := storeFingerprint st0 env.nowMs event
    .ok (finalize env "LATER" 35
      ("User in DND window (" ++ dnd.window ++ "). Deferred to next open slot.")
      (some scheduleAt) stagesD ruleMatches auditId event st1 [.storeFp] .dndDefer)
  else
  let baseScore := computeScore env.nowMs event
  let stagesE := { stagesD with scorer := some ("base_score=" ++ toString baseScore) }
  match env.inject .fatigueRead with
  | some f => .error (f, st0, [])
  | none =>
  let fatigue := getFatiguePenalty env.fatigueFault env.caps st0 env.nowMs
    event.user_id event.source
  let stagesF := { stagesE with fatigue := some ("count=" ++ toString fatigue.count ++
    "/hr, penalty=" ++ toString fatigue.penalty ++ ", level=" ++ fatigue.level) }
  let ai := aiOutcome env
  let stagesG := { stagesF with ai := some ai.2 }
  let finalScore := max 0 (min 100 (baseScore - (fatigue.penalty : Int) + ai.1))
  let conflict := resolveConflict event finalScore fatigue
  let stagesH := { stagesG with conflict := some (if conflict.resolved then
    conflict.reason else "No conflict detected") }
  if conflict.resolved then
    let schedAt := if conflict.decision = some "LATER" then some (getShortDefer env) else none
    match env.inject .storeFp with
    | some f => .error (f, st0, [])
    | none =>
    let st1 := storeFingerprint st0 env.nowMs event
    match env.inject .incrCount with
    | some f => .error (f, st1, [.storeFp])
    | none =>
    let st2 := incrementCounter st1 env.nowMs event
    .ok (finalize env (conflict.decision.getD "null") finalScore conflict.reason schedAt
      stagesH ruleMatches auditId event st2 [.storeFp, .incrCount] .conflictPath)
  else
  let triple := boundaryTriple env finalScore event.event_type
  let stagesI := { stagesH with decision := some ("score=" ++ toString finalScore ++
    " → " ++ triple.1) }
  match env.inject .storeFp with
  | some f => .error (f, st0, [])
  | none =>
  let st1 := storeFingerprint st0 env.nowMs event
  match env.inject .incrCount with
  | some f => .error (f, st1, [.storeFp])
  | none =>
  let st2 := incrementCounter st1 env.nowMs event
  .ok (finalize env triple.1 finalScore triple.2.2 triple.2.1
    stagesI ruleMatches auditId event st2 [.storeFp, .incrCount] .boundaryPath)

/-- `evaluate`: the body wrapped in the failsafe envelope — a caught fault
returns a synthetic NOW for CRITICAL events and is re-raised otherwise. -/
def evaluate (env : Env) (st : Store) (event : Event) : Except Fault EvalOut :=
  let auditId := "aud_" ++ env.uuid8
  match evalBody env st event auditId with
  | .ok out => .ok out
  | .error ec =>
    if event.priority_hint = "CRITICAL" then
      .ok (finalize env "NOW" 90
        "FAILSAFE: pipeline error caught — CRITICAL sent NOW to prevent loss."
        none { failsafe := true } [] auditId event ec.2.1 ec.2.2 .failsafePath)
    else .error ec.1

/-! ## Helper lemmas -/

/-- `resolveConflict` reads only the priority hint, the source, the score,
the fatigue level and the fatigue count. -/
def conflictAux (p src : String) (score : Int) (level : String) (count : Nat) : ConflictRes :=
  if p = "HIGH" ∧ level = "MAXED" then
    ⟨true, some "LATER",
      s!"CONFLICT RESOLVED: HIGH priority but user fatigue MAXED ({count}/hr). Deferred 15 min — not silently dropped."⟩
  else if p = "HIGH" ∧ level = "HIGH" ∧ isNoisySource src = true then
    ⟨true, some "LATER",
      s!"CONFLICT RESOLVED: HIGH priority but \"{src}\" is a noisy source and user fatigue is HIGH. Short defer applied."⟩
  else if p = "MEDIUM" ∧ level = "MAXED" then
    ⟨true, some "NEVER",
      s!"CONFLICT RESOLVED: MEDIUM priority suppressed — user at fatigue cap ({count}/5 per hr). Sending now would worsen alert fatigue."⟩
  else if p = "LOW" ∧ score ≥ 60 ∧ level = "MAXED" then
    ⟨true, some "LATER",
      s!"CONFLICT RESOLVED: Score {score} suggests NOW, but LOW priority + MAXED fatigue. Deferred to avoid noise."⟩
  else ⟨false, none, ""⟩

/-- `resolveConflict` factors through its five projections. -/
theorem resolveConflict_eq_aux (e : Event) (s : Int) (f : FatigueInfo) :
    resolveConflict e s f =
      conflictAux e.priority_hint e.source s f.level f.count := rfl

/-- `resolved` ignores the count. -/
theorem conflictAux_resolved_count (p src : String) (score : Int) (level : String)
    (c1 c2 : Nat) :
    (conflictAux p src score level c1).resolved = (conflictAux p src score level c2).resolved := by
  unfold conflictAux
  split_ifs <;> rfl

/-- `decision` ignores the count. -/
theorem conflictAux_decision_count (p src : String) (score : Int) (level : String)
    (c1 c2 : Nat) :
    (conflictAux p src score level c1).decision = (conflictAux p src score level c2).decision := by
  unfold conflictAux
  split_ifs <;> rfl

/-- A resolved conflict decides LATER or NEVER. -/
theorem resolveConflict_decision (e : Event) (s : Int) (f : FatigueInfo)
    (h : (resolveConflict e s f).resolved = true) :
    (resolveConflict e s f).decision = some "LATER" ∨
      (resolveConflict e s f).decision = some "NEVER" := by
  unfold resolveConflict at *
  split_ifs at h ⊢ <;> simp_all

/-! ## C4 — purity of the conflict resolver -/

/-- Concrete event for the C4 counterexample. -/
def c4e : Event :=
  { user_id := "u", event_type := "reminder", message := "", source := "svc",
    priority_hint := "HIGH", channel := "push", timestamp := none,
    dedupe_key := none, expires_at := none }

/-- C4 (counterexample): two `resolveConflict` invocations agreeing on
`(priority_hint, fatigue.level, source, score)` but with fatigue counts 5
and 6 return different results — the reason string embeds the count — so
the claimed purity in that tuple alone is false. -/
theorem c4_counterexample :
    c4e.priority_hint = c4e.priority_hint ∧
    (⟨5, 30, "MAXED"⟩ : FatigueInfo).level = (⟨6, 30, "MAXED"⟩ : FatigueInfo).level ∧
    c4e.source = c4e.source ∧ (50 : Int) = 50 ∧
    resolveConflict c4e 50 ⟨5, 30, "MAXED"⟩ ≠ resolveConflict c4e 50 ⟨6, 30, "MAXED"⟩ := by
  refine ⟨rfl, rfl, rfl, rfl, ?_⟩
  decide

/-- C4 (amended): `resolved` and `decision` are pure functions of
`(priority_hint, fatigue.level, source, score)`; the full result, reason
included, additionally depends on (and only on) `fatigue.count`. -/
theorem c4_conflict_purity (e1 e2 : Event) (s1 s2 : Int) (f1 f2 : FatigueInfo)
    (hp : e1.priority_hint = e2.priority_hint) (hl : f1.level = f2.level)
    (hs : e1.source = e2.source) (hsc : s1 = s2) :
    (resolveConflict e1 s1 f1).resolved = (resolveConflict e2 s2 f2).resolved ∧
    (resolveConflict e1 s1 f1).decision = (resolveConflict e2 s2 f2).decision ∧
    (f1.count = f2.count → resolveConflict e1 s1 f1 = resolveConflict e2 s2 f2) := by
  subst hsc
  rw [resolveConflict_eq_aux, resolveConflict_eq_aux, hp, hl, hs]
  exact ⟨conflictAux_resolved_count _ _ _ _ _ _,
    conflictAux_decision_count _ _ _ _ _ _, fun hc => by rw [hc]⟩

/-- Witness for C4's amended theorem at a concrete pair. -/
theorem c4_conflict_purity_witness :
    c4e.priority_hint = c4e.priority_hint ∧
    (⟨5, 30, "MAXED"⟩ : FatigueInfo).level = (⟨7, 30, "MAXED"⟩ : FatigueInfo).level ∧
    ((resolveConflict c4e 50 ⟨5, 30, "MAXED"⟩).resolved =
      (resolveConflict c4e 50 ⟨7, 30, "MAXED"⟩).resolved ∧
    (resolveConflict c4e 50 ⟨5, 30, "MAXED"⟩).decision =
      (resolveConflict c4e 50 ⟨7, 30, "MAXED"⟩).decision ∧
    ((5 : Nat) = 7 → resolveConflict c4e 50 ⟨5, 30, "MAXED"⟩ =
      resolveConflict c4e 50 ⟨7, 30, "MAXED"⟩)) :=
  ⟨rfl, rfl, c4_conflict_purity c4e c4e 50 50 ⟨5, 30, "MAXED"⟩ ⟨7, 30, "MAXED"⟩ rfl rfl rfl rfl⟩

/-! ## C8 — the fatigue penalty curve at the default cap -/

/-- Modelled from the claim's words: the penalty branches, evaluated
highest-ratio first. -/
def claimPenalty (cap count : Nat) : Nat :=
  if (count : ℚ) / (cap : ℚ) ≥ 1 then 30
  else if (count : ℚ) / (cap : ℚ) ≥ 8 / 10 then 20
  else if (count : ℚ) / (cap : ℚ) ≥ 5 / 10 then 10
  else if count ≥ 2 then 5
  else 0

/-- Modelled from the claim's words: the level label from the penalty. -/
def claimLevel (p : Nat) : String :=
  if p = 0 then "LOW" else if p ≤ 10 then "MEDIUM" else if p ≤ 20 then "HIGH" else "MAXED"

/-- `count/5 ≥ 1` at the default cap means `count ≥ 5`. -/
theorem ratioGeOne (count : Nat) : ((count : ℚ) / ((5 : Nat) : ℚ) ≥ 1) ↔ 5 ≤ count := by
  rw [ge_iff_le, le_div_iff₀ (by norm_num : (0 : ℚ) < ((5 : Nat) : ℚ))]
  rw [show (1 : ℚ) * ((5 : Nat) : ℚ) = ((5 : Nat) : ℚ) by norm_num, Nat.cast_le]

/-- `count/5 ≥ 0.8` at the default cap means `count ≥ 4`. -/
theorem ratioGe08 (count : Nat) : ((count : ℚ) / ((5 : Nat) : ℚ) ≥ 8 / 10) ↔ 4 ≤ count := by
  rw [ge_iff_le, le_div_iff₀ (by norm_num : (0 : ℚ) < ((5 : Nat) : ℚ))]
  rw [show (8 : ℚ) / 10 * ((5 : Nat) : ℚ) = ((4 : Nat) : ℚ) by norm_num, Nat.cast_le]

/-- `count/5 ≥ 0.5` at the default cap means `count ≥ 3` (counts are
integers, so the 2.5 threshold rounds up). -/
theorem ratioGe05 (count : Nat) : ((count : ℚ) / ((5 : Nat) : ℚ) ≥ 5 / 10) ↔ 3 ≤ count := by
  rw [ge_iff_le, le_div_iff₀ (by norm_num : (0 : ℚ) < ((5 : Nat) : ℚ))]
  rw [show (5 : ℚ) / 10 * ((5 : Nat) : ℚ) = 5 / 2 by norm_num]
  constructor
  · intro h
    have h2 : (5 : ℚ) ≤ 2 * (count : ℚ) := by linarith
    have h3 : (5 : Nat) ≤ 2 * count := by exact_mod_cast h2
    omega
  · intro h
    have h2 : ((3 : Nat) : ℚ) ≤ (count : ℚ) := Nat.cast_le.mpr h
    push_cast at h2
    linarith

/-- The source's curve at the default cap, with the ratio branches turned
into integer thresholds. -/
theorem fatigueCurve_five (count : Nat) :
    fatigueCurve 5 count =
      ⟨count,
        if 5 ≤ count then 30 else if 4 ≤ count then 20 else if 3 ≤ count then 10
          else if 2 ≤ count then 5 else 0,
        if 5 ≤ count then "MAXED" else if 4 ≤ count then "HIGH"
          else if 2 ≤ count then "MEDIUM" else "LOW"⟩ := by
  simp only [fatigueCurve, ratioGeOne, ratioGe08, ratioGe05, ge_iff_le]
  split_ifs <;> simp_all <;> omega

/-- The claim-side curve at the default cap, with the same thresholds. -/
theorem claimPenalty_five (count : Nat) :
    claimPenalty 5 count =
      if 5 ≤ count then 30 else if 4 ≤ count then 20 else if 3 ≤ count then 10
        else if 2 ≤ count then 5 else 0 := by
  simp only [claimPenalty, ratioGeOne, ratioGe08, ratioGe05, ge_iff_le]

/-- C8: at the default total cap of 5, `fatigueCurve` (the penalty/level
computation of `getFatiguePenalty`) realises exactly the claimed
ratio-ordered branches and level labels; equivalently, the integer
thresholds are 5/4/3/2 and the level is LOW ≤ 1, MEDIUM ≤ 3, HIGH = 4,
MAXED ≥ 5. -/
theorem c8_fatigue_curve :
    (∀ count : Nat, fatigueCurve 5 count =
      ⟨count, claimPenalty 5 count, claimLevel (claimPenalty 5 count)⟩) ∧
    (∀ count : Nat, (fatigueCurve 5 count).penalty =
      if count ≥ 5 then 30 else if count = 4 then 20 else if count = 3 then 10
      else if count = 2 then 5 else 0) ∧
    (∀ count : Nat, (fatigueCurve 5 count).level =
      if count ≤ 1 then "LOW" else if count ≤ 3 then "MEDIUM"
      else if count = 4 then "HIGH" else "MAXED") := by
  refine ⟨?_, ?_, ?_⟩ <;> intro count <;> rw [fatigueCurve_five]
  · rw [claimPenalty_five]
    simp only [claimLevel]
    split_ifs <;> simp_all <;> omega
  · simp only [ge_iff_le]
    split_ifs <;> simp_all <;> omega
  · split_ifs <;> simp_all <;> omega

/-! ## C6 — expiry precedence -/

/-- C6: an event whose `expires_at` is present and strictly in the past is
NEVER with score 0, before any later stage runs — for every event,
CRITICAL included, and every environment and store. -/
theorem c6_expiry_precedence (env : Env) (st : Store) (e : Event) (t : Int)
    (hexp : e.expires_at = some t) (hlt : t < env.nowMs) :
    ∃ out, evaluate env st e = .ok out ∧ out.res.decision = "NEVER" ∧
      out.res.score = 0 ∧ out.res.schedule_at = none ∧ out.calls = [] ∧
      out.path = .expired := by
  have hex : isExpired env e = true := by simp [isExpired, hexp, hlt]
  unfold evaluate evalBody
  rw [hex]
  exact ⟨_, rfl, rfl, rfl, rfl, rfl, rfl⟩

/-- Concrete environment used by several witnesses: noon wall clock, no
injected faults, AI adjustment +5, empty rule set. -/
def envW : Env :=
  { nowMs := 1700000000000, hour := 12, todayAt8 := 1699999000000,
    uuid8 := "abcd1234", uuidFallback := "ev9", nowIso := "2023-11-14T22:13:20.000Z",
    rand := 1 / 2, rules := [], aiResult := .ok 5,
    inject := fun _ => none, dedupFlags := {}, fatigueFault := false,
    caps := defaultCaps }

/-- Concrete CRITICAL expired event for the C6 witness. -/
def c6ew : Event :=
  { user_id := "u1", event_type := "security_alert", message := "", source := "auth",
    priority_hint := "CRITICAL", channel := "push", timestamp := none,
    dedupe_key := none, expires_at := some 100 }

/-- Witness for C6: a CRITICAL event with a past expiry is still NEVER. -/
theorem c6_expiry_precedence_witness :
    c6ew.expires_at = some 100 ∧ (100 : Int) < envW.nowMs ∧
    ((evaluate envW Store.empty c6ew).toOption.map
      (fun o => (o.res.decision, o.res.score, o.res.schedule_at, o.calls, o.path))) =
      some ("NEVER", 0, none, [], PathTag.expired) := by
  refine ⟨rfl, by decide, ?_⟩
  obtain ⟨out, heval, h1, h2, h3, h4, h5⟩ :=
    c6_expiry_precedence envW Store.empty c6ew 100 rfl (by decide)
  rw [heval]
  simp [Except.toOption, h1, h2, h3, h4, h5]

/-! ## C5 — `schedule_at` is non-null exactly on LATER (failsafe aside) -/

/-- `finalize` returns the decision it is given. -/
theorem finalize_decision (env : Env) (d : String) (s : Int) (r : String)
    (sc : Option ℚ) (stg : Stages) (rm : List String) (aid : String) (e : Event)
    (st : Store) (cl : List Call) (p : PathTag) :
    (finalize env d s r sc stg rm aid e st cl p).res.decision = d := rfl

/-- `finalize` returns the schedule it is given. -/
theorem finalize_schedule (env : Env) (d : String) (s : Int) (r : String)
    (sc : Option ℚ) (stg : Stages) (rm : List String) (aid : String) (e : Event)
    (st : Store) (cl : List Call) (p : PathTag) :
    (finalize env d s r sc stg rm aid e st cl p).res.schedule_at = sc := rfl

/-- `finalize` returns the score it is given. -/
theorem finalize_score (env : Env) (d : String) (s : Int) (r : String)
    (sc : Option ℚ) (stg : Stages) (rm : List String) (aid : String) (e : Event)
    (st : Store) (cl : List Call) (p : PathTag) :
    (finalize env d s r sc stg rm aid e st cl p).res.score = s := rfl

/-- `finalize` tags the return site it is given. -/
theorem finalize_path (env : Env) (d : String) (s : Int) (r : String)
    (sc : Option ℚ) (stg : Stages) (rm : List String) (aid : String) (e : Event)
    (st : Store) (cl : List Call) (p : PathTag) :
    (finalize env d s r sc stg rm aid e st cl p).path = p := rfl

/-- `finalize` records the call trace it is given. -/
theorem finalize_calls (env : Env) (d : String) (s : Int) (r : String)
    (sc : Option ℚ) (stg : Stages) (rm : List String) (aid : String) (e : Event)
    (st : Store) (cl : List Call) (p : PathTag) :
    (finalize env d s r sc stg rm aid e st cl p).calls = cl := rfl

/-- Shape of the conflict-resolved return when the decision is LATER. -/
theorem conflictTrueLeaf (q : ℚ) (X : Option String) (h : X = some "LATER") :
    (some q : Option ℚ).isSome = true ↔ X.getD "null" = "LATER" := by
  subst h
  simp

/-- Shape of the conflict-resolved return when the decision is not LATER. -/
theorem conflictFalseLeaf (X : Option String) (hne : ¬(X = some "LATER"))
    (hd : X = some "LATER" ∨ X = some "NEVER") :
    (none : Option ℚ).isSome = true ↔ X.getD "null" = "LATER" := by
  rcases hd with h | h
  · exact absurd h hne
  · subst h
    simp

/-- The boundary triple at a NOW score. -/
theorem boundaryTriple_now (env : Env) (fs : Int) (t : String) (h : fs ≥ 60) :
    boundaryTriple env fs t =
      ("NOW", none, "Score " ++ toString fs ++ " ≥ 60 — dispatching immediately.") := by
  unfold boundaryTriple
  rw [if_pos h]

/-- The boundary triple at a LATER score. -/
theorem boundaryTriple_later (env : Env) (fs : Int) (t : String)
    (h30 : fs ≥ 30) (h60 : ¬fs ≥ 60) :
    boundaryTriple env fs t =
      ("LATER", some (getOptimalWindow env t),
        "Score " ++ toString fs ++ " in [30,60) — scheduled for " ++
          toString (getOptimalWindow env t) ++ ".") := by
  unfold boundaryTriple
  rw [if_neg h60, if_pos h30]

/-- The boundary triple at a NEVER score. -/
theorem boundaryTriple_never (env : Env) (fs : Int) (t : String) (h : fs < 30) :
    boundaryTriple env fs t =
      ("NEVER", none,
        "Score " ++ toString fs ++ " < 30 — low-value notification suppressed.") := by
  unfold boundaryTriple
  rw [if_neg (by omega), if_neg (by omega)]

/-- In the boundary triple, the schedule is present exactly on LATER. -/
theorem boundaryTriple_schedule_iff (env : Env) (fs : Int) (t : String) :
    (boundaryTriple env fs t).2.1.isSome = true ↔ (boundaryTriple env fs t).1 = "LATER" := by
  unfold boundaryTriple
  split_ifs <;> simp

/-- C5: whenever `evaluate` returns normally off the failsafe path, the
returned `schedule_at` is non-null iff the decision is LATER; the failsafe
path returns NOW with a null `schedule_at`. -/
theorem c5_schedule_iff_later (env : Env) (st : Store) (e : Event) (out : EvalOut)
    (h : evaluate env st e = .ok out) :
    (out.path ≠ .failsafePath →
      (out.res.schedule_at.isSome = true ↔ out.res.decision = "LATER")) ∧
    (out.path = .failsafePath → out.res.decision = "NOW" ∧ out.res.schedule_at = none) := by
  cases hb : evalBody env st e ("aud_" ++ env.uuid8) with
  | ok out1 =>
    simp only [evaluate, hb, Except.ok.injEq] at h
    subst h
    simp only [evalBody] at hb
    repeat' split at hb
    all_goals try exact Except.noConfusion hb
    all_goals injection hb with hb
    all_goals subst hb
    all_goals refine ⟨fun hp => ?_, fun hp => ?_⟩
    all_goals simp only [finalize_path] at hp
    all_goals try exact PathTag.noConfusion hp
    all_goals simp only [finalize_schedule, finalize_decision]
    all_goals try (simp; done)
    all_goals try (exact boundaryTriple_schedule_iff _ _ _)
    -- remaining: the two conflict-resolved leaves, where the schedule is
    -- `if conflict.decision = some "LATER"`; a resolved conflict decides
    -- LATER or NEVER
    all_goals try (exact conflictTrueLeaf _ _ (by assumption))
    all_goals refine conflictFalseLeaf _ ?_ (resolveConflict_decision _ _ _ ?_)
    all_goals assumption
  | error ec =>
    simp only [evaluate, hb] at h
    split at h
    · injection h with hh
      subst hh
      exact ⟨fun hp => absurd rfl hp, fun _ => ⟨rfl, rfl⟩⟩
    · simp at h

/-- Concrete expired event for the C5 witness. -/
def c5ew : Event :=
  { user_id := "u5", event_type := "reminder", message := "", source := "svc",
    priority_hint := "MEDIUM", channel := "push", timestamp := none,
    dedupe_key := none, expires_at := some 100 }

/-- The output of `evaluate` on `c5ew` (the expiry short-circuit). -/
def c5outW : EvalOut :=
  finalize envW "NEVER" 0 "Event expired (expires_at in the past). Delivery has no value."
    none { expiry := some "EXPIRED" } [] ("aud_" ++ envW.uuid8) c5ew Store.empty [] .expired

/-- Witness for C5 at a concrete run. -/
theorem c5_schedule_iff_later_witness :
    evaluate envW Store.empty c5ew = .ok c5outW ∧
    ((c5outW.path ≠ .failsafePath →
        (c5outW.res.schedule_at.isSome = true ↔ c5outW.res.decision = "LATER")) ∧
      (c5outW.path = .failsafePath →
        c5outW.res.decision = "NOW" ∧ c5outW.res.schedule_at = none)) :=
  ⟨rfl, c5_schedule_iff_later envW Store.empty c5ew c5outW rfl⟩

/-! ## C1 — which paths write counters and fingerprints -/

/-- Concrete low-value event for the C1 counterexample. -/
def c1e : Event :=
  { user_id := "u1", event_type := "digest", message := "", source := "svc",
    priority_hint := "LOW", channel := "in-app", timestamp := none,
    dedupe_key := none, expires_at := none }

/-- C1 (counterexample): a run whose final decision is NEVER — the stage-9
boundary at score 21 — still invokes both `storeFingerprint` and
`incrementCounter`, so the claim that a NEVER decision never writes is
false. -/
theorem c1_counterexample :
    ((evaluate envW Store.empty c1e).toOption.map
        (fun o => (o.res.decision, o.res.score, o.calls, o.path))) =
      some ("NEVER", 21, [Call.storeFp, Call.incrCount], PathTag.boundaryPath) := by decide

/-- C1 (amended): the write effects per return path — the expiry, dedup and
rule-SUPPRESS short-circuits invoke neither `storeFingerprint` nor
`incrementCounter`; the DND deferral invokes only `storeFingerprint`; the
CRITICAL short-circuit, the conflict-resolved return and the stage-9
boundary invoke both, regardless of the decision they return (in
particular a conflict-resolved NEVER or a boundary NEVER still writes). -/
theorem c1_write_effects (env : Env) (st : Store) (e : Event) (out : EvalOut)
    (h : evaluate env st e = .ok out) :
    ((out.path = .expired ∨ out.path = .dupSuppressed ∨ out.path = .ruleSuppressed) →
      out.calls = []) ∧
    (out.path = .dndDefer → out.calls = [Call.storeFp]) ∧
    ((out.path = .criticalNow ∨ out.path = .conflictPath ∨ out.path = .boundaryPath) →
      out.calls = [Call.storeFp, Call.incrCount]) := by
  cases hb : evalBody env st e ("aud_" ++ env.uuid8) with
  | ok out1 =>
    simp only [evaluate, hb, Except.ok.injEq] at h
    subst h
    simp only [evalBody] at hb
    repeat' split at hb
    all_goals try exact Except.noConfusion hb
    all_goals injection hb with hb
    all_goals subst hb
    all_goals refine ⟨fun hp => ?_, fun hp => ?_, fun hp => ?_⟩
    all_goals simp only [finalize_path] at hp
    all_goals try (rcases hp with hp | hp | hp)
    all_goals try exact PathTag.noConfusion hp
    all_goals exact finalize_calls ..
  | error ec =>
    simp only [evaluate, hb] at h
    split at h
    · injection h with hh
      subst hh
      refine ⟨fun hp => ?_, fun hp => ?_, fun hp => ?_⟩
      all_goals simp only [finalize_path] at hp
      all_goals try (rcases hp with hp | hp | hp)
      all_goals exact PathTag.noConfusion hp
    · simp at h

/-- Witness for C1's amended theorem at a concrete run (the boundary
NEVER of `c1_counterexample`). -/
theorem c1_write_effects_witness :
    (evaluate envW Store.empty c1e).toOption.map (fun o => o.calls) =
      some [Call.storeFp, Call.incrCount] := by
  cases hev : evaluate envW Store.empty c1e with
  | ok o =>
    have hpath : o.path = .boundaryPath := by
      have hp0 : (evaluate envW Store.empty c1e).toOption.map (fun o => o.path) =
          some PathTag.boundaryPath := by decide
      rw [hev] at hp0
      simpa [Except.toOption] using hp0
    have hc := (c1_write_effects envW Store.empty c1e o hev).2.2 (Or.inr (Or.inr hpath))
    simp [Except.toOption, hc]
  | error f =>
    have hp0 : (evaluate envW Store.empty c1e).toOption.map (fun o => o.path) =
        some PathTag.boundaryPath := by decide
    rw [hev] at hp0
    simp [Except.toOption] at hp0

/-! ## C2 — CRITICAL versus the dedup guard -/

/-- Store holding the already-seen dedupe key `k1` for the C2
counterexample. -/
def c2st : Store := storeSet Store.empty 1700000000000 "dedup:key:k1" "1" 600

/-- CRITICAL duplicate event for the C2 counterexample. -/
def c2e : Event :=
  { user_id := "u2", event_type := "security_alert", message := "", source := "auth",
    priority_hint := "CRITICAL", channel := "push", timestamp := none,
    dedupe_key := some "k1", expires_at := none }

/-- C2 (counterexample): a CRITICAL, non-expired event whose `dedupe_key`
is already stored is suppressed as NEVER by the stage-2 dedup guard — the
guard runs before the CRITICAL short-circuit, so CRITICAL does not bypass
dedup. -/
theorem c2_counterexample :
    c2e.priority_hint = "CRITICAL" ∧ isExpired envW c2e = false ∧
    (checkDuplicate envW.dedupFlags c2st envW.nowMs c2e).isDuplicate = true ∧
    ((evaluate envW c2st c2e).toOption.map
        (fun o => (o.res.decision, o.res.score, o.path))) =
      some ("NEVER", 0, PathTag.dupSuppressed) := ⟨rfl, rfl, rfl, rfl⟩

/-- C2 (amended): the CRITICAL short-circuit fires only after the dedup
guard — for every CRITICAL, non-expired event that is *not* a duplicate
(and no injected fault on its path), `evaluate` returns NOW with score 97;
a duplicate CRITICAL is instead suppressed NEVER. -/
theorem c2_critical_bypass (env : Env) (st : Store) (e : Event)
    (hcrit : e.priority_hint = "CRITICAL")
    (hexp : isExpired env e = false)
    (hdup : (checkDuplicate env.dedupFlags st env.nowMs e).isDuplicate = false)
    (h1 : env.inject .checkDup = none) (h2 : env.inject .storeFp = none)
    (h3 : env.inject .incrCount = none) :
    ∃ out, evaluate env st e = .ok out ∧ out.res.decision = "NOW" ∧
      out.res.score = 97 ∧ out.res.schedule_at = none ∧
      out.calls = [Call.storeFp, Call.incrCount] ∧ out.path = .criticalNow := by
  simp only [evaluate, evalBody, hexp, h1, hdup, hcrit, h2, h3]
  exact ⟨_, rfl, rfl, rfl, rfl, rfl, rfl⟩

/-- Witness for C2's amended theorem: a fresh CRITICAL event sends NOW. -/
theorem c2_critical_bypass_witness :
    c2e.priority_hint = "CRITICAL" ∧ isExpired envW c2e = false ∧
    (checkDuplicate envW.dedupFlags Store.empty envW.nowMs c2e).isDuplicate = false ∧
    ((evaluate envW Store.empty c2e).toOption.map
      (fun o => (o.res.decision, o.res.score, o.res.schedule_at, o.calls, o.path))) =
      some ("NOW", 97, none, [Call.storeFp, Call.incrCount], PathTag.criticalNow) := by
  refine ⟨rfl, rfl, rfl, ?_⟩
  obtain ⟨out, heval, h1, h2, h3, h4, h5⟩ :=
    c2_critical_bypass envW Store.empty c2e rfl rfl rfl rfl rfl rfl
  rw [heval]
  simp [Except.toOption, h1, h2, h3, h4, h5]

/-! ## C3 — the failsafe envelope -/

/-- Environment whose stage-2 await rejects, for the C3 theorems. -/
def envF : Env :=
  { envW with inject := fun s => if s = Site.checkDup then some ⟨"boom"⟩ else none }

/-- CRITICAL event for the C3 theorems. -/
def c3e : Event :=
  { user_id := "u3", event_type := "security_alert", message := "", source := "auth",
    priority_hint := "CRITICAL", channel := "push", timestamp := none,
    dedupe_key := none, expires_at := none }

/-- The error the faulting stage-2 await produces on `c3e`. -/
def c3ec : EvalErr := (⟨"boom"⟩, Store.empty, [])

/-- C3 (counterexample): on a caught pipeline fault with CRITICAL priority
the code returns NOW with score 90 and `stages.failsafe = true`, but its
reason string is `"FAILSAFE: pipeline error caught — CRITICAL sent NOW to
prevent loss."`, not the claimed `"FAILSAFE: pipeline error — CRITICAL
sent NOW"`. -/
theorem c3_counterexample :
    ((evaluate envF Store.empty c3e).toOption.map
        (fun o => (o.res.decision, o.res.score, o.res.reason, o.audit.stages.failsafe))) =
      some ("NOW", 90,
        "FAILSAFE: pipeline error caught — CRITICAL sent NOW to prevent loss.", true) ∧
    "FAILSAFE: pipeline error caught — CRITICAL sent NOW to prevent loss." ≠
      "FAILSAFE: pipeline error — CRITICAL sent NOW" := by
  exact ⟨rfl, by decide⟩

/-- C3 (amended): any fault raised in stages 2–9 is caught; with
`priority_hint = CRITICAL` the result is a synthetic NOW with score 90,
reason `"FAILSAFE: pipeline error caught — CRITICAL sent NOW to prevent
loss."` and audit `stages.failsafe = true`; otherwise the same fault is
re-raised to the caller. -/
theorem c3_failsafe_envelope (env : Env) (st : Store) (e : Event) (ec : EvalErr)
    (h : evalBody env st e ("aud_" ++ env.uuid8) = .error ec) :
    (e.priority_hint = "CRITICAL" →
      ∃ out, evaluate env st e = .ok out ∧ out.res.decision = "NOW" ∧
        out.res.score = 90 ∧
        out.res.reason =
          "FAILSAFE: pipeline error caught — CRITICAL sent NOW to prevent loss." ∧
        out.res.schedule_at = none ∧ out.audit.stages.failsafe = true ∧
        out.path = .failsafePath) ∧
    (e.priority_hint ≠ "CRITICAL" → evaluate env st e = .error ec.1) := by
  constructor
  · intro hc
    have heval : evaluate env st e = .ok (finalize env "NOW" 90
        "FAILSAFE: pipeline error caught — CRITICAL sent NOW to prevent loss."
        none { failsafe := true } [] ("aud_" ++ env.uuid8) e ec.2.1 ec.2.2 .failsafePath) := by
      simp only [evaluate, h]
      rw [if_pos hc]
    exact ⟨_, heval, rfl, rfl, rfl, rfl, rfl, rfl⟩
  · intro hc
    simp only [evaluate, h]
    rw [if_neg hc]

/-- Witness for C3's amended theorem: a rejected stage-2 await on a
CRITICAL event yields the synthetic failsafe NOW. -/
theorem c3_failsafe_envelope_witness :
    evalBody envF Store.empty c3e ("aud_" ++ envF.uuid8) = .error c3ec ∧
    c3e.priority_hint = "CRITICAL" ∧
    ((evaluate envF Store.empty c3e).toOption.map
      (fun o => (o.res.decision, o.res.score, o.res.reason, o.res.schedule_at,
        o.audit.stages.failsafe, o.path))) =
      some ("NOW", 90,
        "FAILSAFE: pipeline error caught — CRITICAL sent NOW to prevent loss.",
        none, true, PathTag.failsafePath) := by
  refine ⟨rfl, rfl, ?_⟩
  obtain ⟨out, heval, h1, h2, h3, h4, h5, h6⟩ :=
    (c3_failsafe_envelope envF Store.empty c3e c3ec rfl).1 rfl
  rw [heval]
  simp [Except.toOption, h1, h2, h3, h4, h5, h6]

/-! ## C7 — the decision boundary -/

/-- The clamped final score of stage 8:
`clamp(0, 100, base − fatigue_penalty + ai)`. -/
def finalScoreOf (env : Env) (st : Store) (e : Event) : Int :=
  max 0 (min 100 (computeScore env.nowMs e -
    ((getFatiguePenalty env.fatigueFault env.caps st env.nowMs e.user_id e.source).penalty : Int) +
    (aiOutcome env).1))

/-- The fatigue reading of stage 6. -/
def fatigueOf (env : Env) (st : Store) (e : Event) : FatigueInfo :=
  getFatiguePenalty env.fatigueFault env.caps st env.nowMs e.user_id e.source

/-- C7: when no earlier stage short-circuits and the conflict resolver does
not resolve, the boundary maps the clamped final score to NOW (≥ 60, no
schedule), LATER (in `[30,60)`, scheduled between 2 and 5 hours out for
promotion/low_value_promo/system_update and between 15 and 45 minutes out
otherwise), or NEVER (< 30). -/
theorem c7_decision_boundary (env : Env) (st : Store) (e : Event)
    (hinj : ∀ s, env.inject s = none)
    (hexp : isExpired env e = false)
    (hdup : (checkDuplicate env.dedupFlags st env.nowMs e).isDuplicate = false)
    (hcrit : e.priority_hint ≠ "CRITICAL")
    (hsup : List.find? (fun r => r.action = "SUPPRESS") (matchRules e env.rules) = none)
    (hdnd : (checkDND env).inDND = false)
    (hconf : (resolveConflict e (finalScoreOf env st e) (fatigueOf env st e)).resolved = false)
    (hr0 : 0 ≤ env.rand) (hr1 : env.rand < 1) :
    (finalScoreOf env st e ≥ 60 →
      ∃ out, evaluate env st e = .ok out ∧ out.res.decision = "NOW" ∧
        out.res.score = finalScoreOf env st e ∧ out.res.schedule_at = none ∧
        out.path = .boundaryPath) ∧
    (30 ≤ finalScoreOf env st e → finalScoreOf env st e < 60 →
      ∃ out, evaluate env st e = .ok out ∧ out.res.decision = "LATER" ∧
        out.res.score = finalScoreOf env st e ∧ out.path = .boundaryPath ∧
        ∃ w, out.res.schedule_at = some w ∧
          ((lowPrioWindowTypes.contains e.event_type = true →
            ((env.nowMs : ℚ) + 7200000 ≤ w ∧ w ≤ (env.nowMs : ℚ) + 18000000)) ∧
           (lowPrioWindowTypes.contains e.event_type = false →
            ((env.nowMs : ℚ) + 900000 ≤ w ∧ w ≤ (env.nowMs : ℚ) + 2700000)))) ∧
    (finalScoreOf env st e < 30 →
      ∃ out, evaluate env st e = .ok out ∧ out.res.decision = "NEVER" ∧
        out.res.score = finalScoreOf env st e ∧ out.res.schedule_at = none ∧
        out.path = .boundaryPath) := by
  have hw : ∀ t : String,
      ((lowPrioWindowTypes.contains t = true →
        ((env.nowMs : ℚ) + 7200000 ≤ getOptimalWindow env t ∧
          getOptimalWindow env t ≤ (env.nowMs : ℚ) + 18000000)) ∧
       (lowPrioWindowTypes.contains t = false →
        ((env.nowMs : ℚ) + 900000 ≤ getOptimalWindow env t ∧
          getOptimalWindow env t ≤ (env.nowMs : ℚ) + 2700000))) := by
    intro t
    unfold getOptimalWindow
    constructor
    · intro hc
      rw [if_pos hc]
      dsimp only
      constructor <;> nlinarith [hr0, hr1]
    · intro hc
      rw [hc]
      simp only [Bool.false_eq_true, if_false]
      constructor <;> nlinarith [hr0, hr1]
  have hex : ∃ stg rm, evalBody env st e ("aud_" ++ env.uuid8) =
      .ok (finalize env (boundaryTriple env (finalScoreOf env st e) e.event_type).1
        (finalScoreOf env st e)
        (boundaryTriple env (finalScoreOf env st e) e.event_type).2.2
        (boundaryTriple env (finalScoreOf env st e) e.event_type).2.1
        stg rm ("aud_" ++ env.uuid8) e
        (incrementCounter (storeFingerprint st env.nowMs e) env.nowMs e)
        [Call.storeFp, Call.incrCount] .boundaryPath) := by
    apply Exists.intro
    apply Exists.intro
    simp only [evalBody, finalScoreOf, fatigueOf] at hconf ⊢
    rw [hexp, hinj Site.checkDup, hdup]
    simp only [Bool.false_eq_true, if_false]
    rw [if_neg hcrit, hinj Site.rulesLoad, hsup, hdnd]
    simp only [Bool.false_eq_true, if_false]
    rw [hinj Site.fatigueRead, hconf]
    simp only [Bool.false_eq_true, if_false]
    rw [hinj Site.storeFp, hinj Site.incrCount]
  obtain ⟨stg, rm, hrun⟩ := hex
  refine ⟨fun h60 => ?_, fun h30 h60 => ?_, fun h30 => ?_⟩
  · rw [boundaryTriple_now env _ e.event_type h60] at hrun
    have heval : evaluate env st e = .ok (finalize env "NOW" (finalScoreOf env st e)
        ("Score " ++ toString (finalScoreOf env st e) ++ " ≥ 60 — dispatching immediately.")
        none stg rm ("aud_" ++ env.uuid8) e
        (incrementCounter (storeFingerprint st env.nowMs e) env.nowMs e)
        [Call.storeFp, Call.incrCount] .boundaryPath) := by
      simp only [evaluate, hrun]
    exact ⟨_, heval, rfl, rfl, rfl, rfl⟩
  · rw [boundaryTriple_later env _ e.event_type (by omega) (by omega)] at hrun
    have heval : evaluate env st e = .ok (finalize env "LATER" (finalScoreOf env st e)
        ("Score " ++ toString (finalScoreOf env st e) ++ " in [30,60) — scheduled for " ++
          toString (getOptimalWindow env e.event_type) ++ ".")
        (some (getOptimalWindow env e.event_type)) stg rm ("aud_" ++ env.uuid8) e
        (incrementCounter (storeFingerprint st env.nowMs e) env.nowMs e)
        [Call.storeFp, Call.incrCount] .boundaryPath) := by
      simp only [evaluate, hrun]
    exact ⟨_, heval, rfl, rfl, rfl, _, rfl, hw e.event_type⟩
  · rw [boundaryTriple_never env _ e.event_type h30] at hrun
    have heval : evaluate env st e = .ok (finalize env "NEVER" (finalScoreOf env st e)
        ("Score " ++ toString (finalScoreOf env st e) ++
          " < 30 — low-value notification suppressed.")
        none stg rm ("aud_" ++ env.uuid8) e
        (incrementCounter (storeFingerprint st env.nowMs e) env.nowMs e)
        [Call.storeFp, Call.incrCount] .boundaryPath) := by
      simp only [evaluate, hrun]
    exact ⟨_, heval, rfl, rfl, rfl, rfl⟩

/-- Concrete mid-score event for the C7 witness (base 48, AI +5 ⇒ 53). -/
def c7e : Event :=
  { user_id := "u7", event_type := "reminder", message := "", source := "svc",
    priority_hint := "MEDIUM", channel := "push", timestamp := none,
    dedupe_key := none, expires_at := none }

/-- Witness for C7 at a concrete run in the LATER band. -/
theorem c7_decision_boundary_witness :
    30 ≤ finalScoreOf envW Store.empty c7e ∧ finalScoreOf envW Store.empty c7e < 60 ∧
    (resolveConflict c7e (finalScoreOf envW Store.empty c7e)
      (fatigueOf envW Store.empty c7e)).resolved = false ∧
    ((evaluate envW Store.empty c7e).toOption.map
      (fun o => (o.res.decision, o.res.score, o.res.schedule_at.isSome, o.path))) =
      some ("LATER", finalScoreOf envW Store.empty c7e, true, PathTag.boundaryPath) := by
  refine ⟨by decide, by decide, by decide, ?_⟩
  obtain ⟨out, heval, h1, h2, h3, w, hw, _⟩ :=
    (c7_decision_boundary envW Store.empty c7e (fun _ => rfl) rfl rfl (by decide) rfl rfl
      (by decide) (by decide) (by decide)).2.1 (by decide) (by decide)
  rw [heval]
  simp [Except.toOption, h1, h2, h3, hw]

/-! ## C10 — the DND deferral writes the fingerprint but not the counters -/

/-- Unequal heads make unequal strings. -/
theorem ne_of_head (s1 s2 : String) (h : s1.data.head? ≠ s2.data.head?) : s1 ≠ s2 :=
  fun e => h (congrArg (fun s => s.data.head?) e)

/-- A fatigue-counter key is never a SimHash key. -/
theorem freq_ne_sim (u x c t : String) :
    ("freq:" ++ u ++ x) ≠ ("sim:" ++ c ++ ":" ++ t) :=
  ne_of_head _ _ (by
    rw [show ("freq:" ++ u ++ x).data.head? = some 'f' from rfl,
        show ("sim:" ++ c ++ ":" ++ t).data.head? = some 's' from rfl]
    decide)

/-- A content-fingerprint key is never a dedupe-key key. -/
theorem fp_ne_key (a b : String) : ("dedup:fp:" ++ a) ≠ ("dedup:key:" ++ b) := by
  intro h
  have h2 : ("dedup:fp:" ++ a).data[6]? = ("dedup:key:" ++ b).data[6]? :=
    congrArg (fun s => s.data[6]?) h
  rw [show ("dedup:fp:" ++ a).data[6]? = some 'f' from rfl,
      show ("dedup:key:" ++ b).data[6]? = some 'k' from rfl] at h2
  exact absurd h2 (by decide)

/-- `storeFingerprint` touches no sorted set but the event's SimHash key. -/
theorem storeFingerprint_zs_frame (st : Store) (now : Int) (e : Event) (k : String)
    (hk : k ≠ "sim:" ++ e.user_id ++ ":" ++ e.event_type) :
    (storeFingerprint st now e).zs k = st.zs k ∧
      (storeFingerprint st now e).zexp k = st.zexp k := by
  unfold storeFingerprint
  cases e.dedupe_key with
  | none => simp [zremUpTo, zexpireSt, zaddSt, storeSet, hk]
  | some dk =>
    by_cases hdk : dk.isEmpty <;>
      simp [zremUpTo, zexpireSt, zaddSt, storeSet, hk, hdk]

/-- `storeFingerprint` leaves the content fingerprint readable. -/
theorem storeFingerprint_gets_fp (st : Store) (now : Int) (e : Event) :
    storeGet (storeFingerprint st now e) now ("dedup:fp:" ++ buildFingerprint e) =
      some "1" := by
  have httl : (0 : Int) <
      (if isPromo e.event_type then TTL_PROMO else TTL_TRANSACTIONAL) * 1000 := by
    split_ifs <;> decide
  unfold storeFingerprint
  cases e.dedupe_key with
  | none =>
    simp [zremUpTo, zexpireSt, zaddSt, storeSet, storeGet]
    try split
    all_goals first
      | rfl
      | decide
      | omega
  | some dk =>
    by_cases hdk : dk.isEmpty
    · simp [zremUpTo, zexpireSt, zaddSt, storeSet, storeGet, hdk]
      try split
      all_goals first
        | rfl
        | decide
        | omega
    · simp [zremUpTo, zexpireSt, zaddSt, storeSet, storeGet, hdk,
        fp_ne_key (buildFingerprint e) dk]
      try split
      all_goals first
        | rfl
        | decide
        | omega

/-- C10: on the DND-deferral path, `evaluate` returns LATER having invoked
`storeFingerprint` but not `incrementCounter`: the three fatigue-counter
keys of the event are untouched while its dedup fingerprint is stored. -/
theorem c10_dnd_frame (env : Env) (st : Store) (e : Event)
    (hinj : ∀ s, env.inject s = none)
    (hexp : isExpired env e = false)
    (hdup : (checkDuplicate env.dedupFlags st env.nowMs e).isDuplicate = false)
    (hcrit : e.priority_hint ≠ "CRITICAL")
    (hsup : List.find? (fun r => r.action = "SUPPRESS") (matchRules e env.rules) = none)
    (hdnd : (checkDND env).inDND = true) :
    ∃ out, evaluate env st e = .ok out ∧ out.res.decision = "LATER" ∧
      out.path = .dndDefer ∧ out.calls = [Call.storeFp] ∧
      out.store.zs ("freq:" ++ e.user_id ++ ":total") =
        st.zs ("freq:" ++ e.user_id ++ ":total") ∧
      out.store.zs ("freq:" ++ e.user_id ++ ":" ++ e.source) =
        st.zs ("freq:" ++ e.user_id ++ ":" ++ e.source) ∧
      out.store.zs ("freq:" ++ e.user_id ++ ":promo") =
        st.zs ("freq:" ++ e.user_id ++ ":promo") ∧
      out.store.zexp ("freq:" ++ e.user_id ++ ":total") =
        st.zexp ("freq:" ++ e.user_id ++ ":total") ∧
      out.store.zexp ("freq:" ++ e.user_id ++ ":" ++ e.source) =
        st.zexp ("freq:" ++ e.user_id ++ ":" ++ e.source) ∧
      out.store.zexp ("freq:" ++ e.user_id ++ ":promo") =
        st.zexp ("freq:" ++ e.user_id ++ ":promo") ∧
      storeGet out.store env.nowMs ("dedup:fp:" ++ buildFingerprint e) = some "1" := by
  have hex : ∃ stg rm, evalBody env st e ("aud_" ++ env.uuid8) =
      .ok (finalize env "LATER" 35
        ("User in DND window (" ++ "23:00–08:00" ++ "). Deferred to next open slot.")
        (some (getNextOpenWindow env)) stg rm ("aud_" ++ env.uuid8) e
        (storeFingerprint st env.nowMs e) [Call.storeFp] .dndDefer) := by
    apply Exists.intro
    apply Exists.intro
    simp only [evalBody]
    rw [hexp, hinj Site.checkDup, hdup]
    simp only [Bool.false_eq_true, if_false]
    rw [if_neg hcrit, hinj Site.rulesLoad, hsup]
    simp only [checkDND] at hdnd ⊢
    rw [hdnd]
    simp only [if_true]
    rw [hinj Site.storeFp]
  obtain ⟨stg, rm, hrun⟩ := hex
  have heval : evaluate env st e = .ok (finalize env "LATER" 35
      ("User in DND window (" ++ "23:00–08:00" ++ "). Deferred to next open slot.")
      (some (getNextOpenWindow env)) stg rm ("aud_" ++ env.uuid8) e
      (storeFingerprint st env.nowMs e) [Call.storeFp] .dndDefer) := by
    simp only [evaluate, hrun]
  refine ⟨_, heval, rfl, rfl, rfl, ?_, ?_, ?_, ?_, ?_, ?_, ?_⟩
  · exact (storeFingerprint_zs_frame st env.nowMs e _ (freq_ne_sim _ _ _ _)).1
  · exact (storeFingerprint_zs_frame st env.nowMs e _ (freq_ne_sim _ _ _ _)).1
  · exact (storeFingerprint_zs_frame st env.nowMs e _ (freq_ne_sim _ _ _ _)).1
  · exact (storeFingerprint_zs_frame st env.nowMs e _ (freq_ne_sim _ _ _ _)).2
  · exact (storeFingerprint_zs_frame st env.nowMs e _ (freq_ne_sim _ _ _ _)).2
  · exact (storeFingerprint_zs_frame st env.nowMs e _ (freq_ne_sim _ _ _ _)).2
  · exact storeFingerprint_gets_fp st env.nowMs e

/-- Environment inside the DND window (23:00), otherwise like `envW`. -/
def envD : Env := { envW with hour := 23 }

/-- Concrete event for the C10 witness. -/
def c10e : Event :=
  { user_id := "u10", event_type := "reminder", message := "", source := "svc",
    priority_hint := "MEDIUM", channel := "push", timestamp := none,
    dedupe_key := none, expires_at := none }

/-- Witness for C10 at a concrete run deferred by DND. -/
theorem c10_dnd_frame_witness :
    (checkDND envD).inDND = true ∧
    ((evaluate envD Store.empty c10e).toOption.map
      (fun o => (o.res.decision, o.calls, o.path,
        o.store.zs ("freq:" ++ c10e.user_id ++ ":total"),
        storeGet o.store envD.nowMs ("dedup:fp:" ++ buildFingerprint c10e)))) =
      some ("LATER", [Call.storeFp], PathTag.dndDefer, [], some "1") := by
  refine ⟨rfl, ?_⟩
  obtain ⟨out, heval, h1, h2, h3, h4, h5, h6, h7, h8, h9, h10⟩ :=
    c10_dnd_frame envD Store.empty c10e (fun _ => rfl) rfl rfl (by decide) rfl rfl
  rw [heval]
  simp [Except.toOption, h1, h2, h3, h4, h10, Store.empty]

/-! ## C9 — fingerprint invariance under message normalization -/

/-- `dropWhile` returns nil or a head falsifying the predicate. -/
theorem dropWhile_head_shape (p : Char → Bool) :
    ∀ l : List Char, l.dropWhile p = [] ∨
      ∃ c cs, l.dropWhile p = c :: cs ∧ p c = false := by
  intro l
  induction l with
  | nil => exact Or.inl rfl
  | cons c cs ih =>
    by_cases h : p c
    · rw [List.dropWhile_cons_of_pos h]
      exact ih
    · rw [List.dropWhile_cons_of_neg h]
      exact Or.inr ⟨c, cs, rfl, by simpa using h⟩

/-- `collapseWs` on nil. -/
theorem collapseWs_nil : collapseWs [] = [] := by
  rw [collapseWs]

/-- `wsTokens` on nil. -/
theorem wsTokens_nil : wsTokens [] = [] := by
  rw [wsTokens]

/-- `collapseWs` keeps a non-whitespace head. -/
theorem collapseWs_cons_neg (c : Char) (cs : List Char) (h : isJsWs c = false) :
    collapseWs (c :: cs) = c :: collapseWs cs := by
  rw [collapseWs]
  simp [h]

/-- `collapseWs` folds a whitespace head and its run into one space. -/
theorem collapseWs_cons_pos (c : Char) (cs : List Char) (h : isJsWs c = true) :
    collapseWs (c :: cs) = ' ' :: collapseWs (cs.dropWhile isJsWs) := by
  rw [collapseWs]
  simp [h]

/-- Leading-trim commutes with whitespace collapsing. -/
theorem ltrim_collapse (l : List Char) : ltrimWs (collapseWs l) = collapseWs (ltrimWs l) := by
  cases l with
  | nil => simp [ltrimWs, collapseWs_nil]
  | cons c cs =>
    by_cases h : isJsWs c
    · rw [collapseWs_cons_pos c cs h]
      unfold ltrimWs
      rw [List.dropWhile_cons_of_pos (by decide : isJsWs ' ' = true),
        List.dropWhile_cons_of_pos h]
      rcases dropWhile_head_shape isJsWs cs with h0 | ⟨d, ds, h0, hd⟩
      · rw [h0, collapseWs_nil]
        rfl
      · rw [h0, collapseWs_cons_neg d ds hd, List.dropWhile_cons_of_neg (by simp [hd])]
    · have h' : isJsWs c = false := by simpa using h
      rw [collapseWs_cons_neg c cs h']
      unfold ltrimWs
      rw [List.dropWhile_cons_of_neg (by simp [h']), List.dropWhile_cons_of_neg (by simp [h'])]
      rw [collapseWs_cons_neg c cs h']

/-- Collapsing skips over a whitespace-free prefix. -/
theorem collapseWs_clean_append (t rest : List Char)
    (h : ∀ x ∈ t, isJsWs x = false) :
    collapseWs (t ++ rest) = t ++ collapseWs rest := by
  induction t with
  | nil => rfl
  | cons x t' ih =>
    rw [List.cons_append, collapseWs_cons_neg x _ (h x (by simp)),
      ih (fun y hy => h y (by simp [hy])), List.cons_append]

/-- Trailing-trim keeps a non-whitespace head. -/
theorem rtrim_cons_neg (x : Char) (xs : List Char) (h : isJsWs x = false) :
    rtrimWs (x :: xs) = x :: rtrimWs xs := by
  unfold rtrimWs
  rw [List.reverse_cons, List.dropWhile_append]
  split
  · rename_i hemp
    rw [List.isEmpty_iff] at hemp
    rw [hemp, List.dropWhile_cons_of_neg (by simp [h])]
    simp
  · rw [List.reverse_append]
    rfl

/-- Trailing-trim drops a trailing whitespace character. -/
theorem rtrim_append_ws (xs : List Char) (w : Char) (h : isJsWs w = true) :
    rtrimWs (xs ++ [w]) = rtrimWs xs := by
  unfold rtrimWs
  rw [List.reverse_append, List.reverse_singleton, List.singleton_append,
    List.dropWhile_cons_of_pos h]

/-- Trailing-trim only acts on the right block when that block survives. -/
theorem rtrim_append_of_ne (xs ys : List Char) (h : rtrimWs ys ≠ []) :
    rtrimWs (xs ++ ys) = xs ++ rtrimWs ys := by
  have hne : ys.reverse.dropWhile isJsWs ≠ [] := by
    intro h0
    exact h (by simp [rtrimWs, h0])
  unfold rtrimWs
  rw [List.reverse_append, List.dropWhile_append]
  rw [if_neg (by simpa [List.isEmpty_iff] using hne)]
  rw [List.reverse_append, List.reverse_reverse]

/-- Trailing-trim is the identity on whitespace-free lists. -/
theorem rtrim_clean (l : List Char) (h : ∀ x ∈ l, isJsWs x = false) : rtrimWs l = l := by
  induction l with
  | nil => rfl
  | cons x xs ih =>
    rw [rtrim_cons_neg x xs (h x (by simp)), ih (fun y hy => h y (by simp [hy]))]

/-- Join a word list with single spaces (the canonical normalized form). -/
def unwords : List (List Char) → List Char
  | [] => []
  | [t] => t
  | t :: t2 :: ts => t ++ ' ' :: unwords (t2 :: ts)

/-- Strong-induction core of the normalization lemma: on lists that do not
start with whitespace, collapse-then-right-trim is the space-joined word
list. -/
theorem rtrim_collapse_core :
    ∀ n (l : List Char), l.length ≤ n →
      (l = [] ∨ ∃ c cs, l = c :: cs ∧ isJsWs c = false) →
      rtrimWs (collapseWs l) = unwords (wsTokens l) := by
  intro n
  induction n with
  | zero =>
    intro l hlen _
    have : l = [] := List.length_eq_zero.mp (Nat.le_zero.mp hlen)
    subst this
    simp [collapseWs_nil, wsTokens_nil, rtrimWs, unwords]
  | succ n ih =>
    intro l hlen hshape
    rcases hshape with rfl | ⟨c, cs, rfl, hc⟩
    · simp [collapseWs_nil, wsTokens_nil, rtrimWs, unwords]
    have htclean : ∀ x ∈ cs.takeWhile (fun d => !isJsWs d), isJsWs x = false := by
      intro x hx
      simpa using List.mem_takeWhile_imp hx
    have hsplit : cs.takeWhile (fun d => !isJsWs d) ++ cs.dropWhile (fun d => !isJsWs d) = cs :=
      List.takeWhile_append_dropWhile _ _
    have htok : wsTokens (c :: cs) =
        (c :: cs.takeWhile (fun d => !isJsWs d)) :: wsTokens (cs.dropWhile (fun d => !isJsWs d)) := by
      rw [wsTokens]
      simp [hc]
    have hcol : collapseWs (c :: cs) =
        c :: (cs.takeWhile (fun d => !isJsWs d) ++ collapseWs (cs.dropWhile (fun d => !isJsWs d))) := by
      rw [collapseWs_cons_neg c cs hc]
      conv_lhs => rw [← hsplit]
      rw [collapseWs_clean_append _ _ htclean]
    rcases dropWhile_head_shape (fun d => !isJsWs d) cs with h0 | ⟨w, rs, h0, hw⟩
    · rw [htok, h0, hcol, h0]
      show rtrimWs ((c :: cs.takeWhile (fun d => !isJsWs d)) ++ collapseWs []) = _
      rw [collapseWs_nil, List.append_nil]
      rw [rtrim_clean _ (by
        intro x hx
        rcases List.mem_cons.mp hx with rfl | hx2
        · exact hc
        · exact htclean x hx2)]
      rw [wsTokens_nil]
      rfl
    · have hw' : isJsWs w = true := by simpa using hw
      rw [htok, h0, hcol, h0]
      rw [collapseWs_cons_pos w rs hw']
      have htok2 : wsTokens (w :: rs) = wsTokens (rs.dropWhile isJsWs) := by
        rw [wsTokens]
        simp [hw']
      rw [htok2]
      rcases dropWhile_head_shape isJsWs rs with h1 | ⟨d, ds, h1, hd⟩
      · rw [h1]
        show rtrimWs ((c :: cs.takeWhile (fun d => !isJsWs d)) ++ (' ' :: collapseWs [])) = _
        rw [collapseWs_nil]
        rw [rtrim_append_ws _ ' ' (by decide)]
        rw [rtrim_clean _ (by
          intro x hx
          rcases List.mem_cons.mp hx with rfl | hx2
          · exact hc
          · exact htclean x hx2)]
        rw [wsTokens_nil]
        rfl
      · have hlen2 : (rs.dropWhile isJsWs).length ≤ n := by
          have d1 := lengthDropWhileLe (fun d => !isJsWs d) cs
          have d2 := lengthDropWhileLe isJsWs rs
          have d3 : (w :: rs).length = rs.length + 1 := rfl
          have d4 : (c :: cs).length = cs.length + 1 := rfl
          rw [h0] at d1
          rw [d4] at hlen
          omega
        have hih := ih (rs.dropWhile isJsWs) hlen2 (Or.inr ⟨d, ds, h1, hd⟩)
        have hne : rtrimWs (collapseWs (rs.dropWhile isJsWs)) ≠ [] := by
          rw [h1, collapseWs_cons_neg d ds hd, rtrim_cons_neg d _ hd]
          simp
        show rtrimWs ((c :: cs.takeWhile (fun d => !isJsWs d)) ++
          (' ' :: collapseWs (rs.dropWhile isJsWs))) = _
        rw [show (' ' : Char) :: collapseWs (rs.dropWhile isJsWs) =
          [' '] ++ collapseWs (rs.dropWhile isJsWs) from rfl]
        rw [← List.append_assoc]
        rw [rtrim_append_of_ne _ _ hne, hih]
        have hwne : wsTokens (rs.dropWhile isJsWs) =
            (d :: ds.takeWhile (fun x => !isJsWs x)) :: wsTokens (ds.dropWhile (fun x => !isJsWs x)) := by
          rw [h1, wsTokens]
          simp [hd]
        rw [hwne]
        rw [unwords]
        simp

/-- `wsTokens` ignores leading whitespace. -/
theorem wsTokens_ltrim (l : List Char) : wsTokens (ltrimWs l) = wsTokens l := by
  cases l with
  | nil => rfl
  | cons c cs =>
    by_cases h : isJsWs c
    · unfold ltrimWs
      rw [List.dropWhile_cons_of_pos h]
      conv_rhs => rw [wsTokens]
      simp [h]
    · have h' : isJsWs c = false := by simpa using h
      unfold ltrimWs
      rw [List.dropWhile_cons_of_neg (by simp [h'])]

/-- The normalization of `buildFingerprint` is determined by the
whitespace-separated word list: collapse + trim equals the space-joined
words. -/
theorem trim_collapse_eq_unwords (l : List Char) :
    trimWs (collapseWs l) = unwords (wsTokens l) := by
  unfold trimWs
  rw [ltrim_collapse]
  rcases dropWhile_head_shape isJsWs l with h0 | ⟨c, cs, h0, hc⟩
  · show rtrimWs (collapseWs (ltrimWs l)) = _
    rw [← wsTokens_ltrim l]
    unfold ltrimWs
    rw [h0, collapseWs_nil, wsTokens_nil]
    rfl
  · show rtrimWs (collapseWs (ltrimWs l)) = _
    rw [← wsTokens_ltrim l]
    exact rtrim_collapse_core (ltrimWs l).length (ltrimWs l) le_rfl
      (Or.inr ⟨c, cs, h0, hc⟩)

/-- The eight-character hex block. -/
theorem toHex8_length (w : Nat) : (toHex8 w).length = 8 := by
  simp [toHex8]

/-- Every digest character is a lowercase hex digit. -/
theorem hexChar_mem (n : Nat) : hexDigits.contains (hexChar n) = true := by
  by_cases h : n < 16
  · unfold hexChar
    interval_cases n <;> decide
  · have hlen : hexDigits.length ≤ n := by
      simp only [hexDigits, List.length]
      omega
    unfold hexChar
    rw [List.getD_eq_default _ _ hlen]
    decide

/-- SHA-256 hex digests are 64 characters long. -/
theorem sha256Hex_length (msg : List Nat) : (sha256Hex msg).length = 64 := by
  simp [sha256Hex, hash8Words, String.length, toHex8_length]

/-- SHA-256 hex digests consist of hex digits. -/
theorem sha256Hex_all_hex (msg : List Nat) :
    (sha256Hex msg).data.all (fun c => hexDigits.contains c) = true := by
  rw [List.all_eq_true]
  intro c hc
  simp only [sha256Hex, hash8Words, List.mem_flatten, List.mem_map] at hc
  obtain ⟨blk, ⟨w, _, rfl⟩, hcblk⟩ := hc
  simp only [toHex8, List.mem_map] at hcblk
  obtain ⟨i, _, rfl⟩ := hcblk
  exact hexChar_mem _

/-- C9: two events agreeing on `user_id`, `event_type` and `source` whose
messages have the same case-folded whitespace-separated words (i.e. differ
only in letter case and in leading/trailing/interior whitespace runs)
produce the same `buildFingerprint`, a 64-character lowercase-hex string. -/
theorem c9_fingerprint_normalization (e1 e2 : Event)
    (hu : e1.user_id = e2.user_id) (ht : e1.event_type = e2.event_type)
    (hs : e1.source = e2.source)
    (hm : wsTokens (e1.message.data.map jsToLower) =
      wsTokens (e2.message.data.map jsToLower)) :
    buildFingerprint e1 = buildFingerprint e2 ∧
    (buildFingerprint e1).length = 64 ∧
    (buildFingerprint e1).data.all (fun c => hexDigits.contains c) = true := by
  have hnorm : normalizeMsg e1.message = normalizeMsg e2.message := by
    unfold normalizeMsg
    rw [trim_collapse_eq_unwords, trim_collapse_eq_unwords, hm]
  refine ⟨?_, sha256Hex_length _, sha256Hex_all_hex _⟩
  unfold buildFingerprint
  rw [hu, ht, hs, hnorm]

/-- Events of the dedup test suite for the C9 witness. -/
def c9e1 : Event :=
  { user_id := "user_001", event_type := "promotion", message := "Big sale today!",
    source := "marketing", priority_hint := "LOW", channel := "push",
    timestamp := none, dedupe_key := none, expires_at := none }

/-- Whitespace-run variant of `c9e1`. -/
def c9e2 : Event := { c9e1 with message := "  Big  sale  today!  " }

/-- Witness for C9: the test suite's whitespace variants fingerprint
identically. -/
theorem c9_fingerprint_normalization_witness :
    c9e1.user_id = c9e2.user_id ∧ c9e1.event_type = c9e2.event_type ∧
    c9e1.source = c9e2.source ∧
    wsTokens (c9e1.message.data.map jsToLower) =
      wsTokens (c9e2.message.data.map jsToLower) ∧
    buildFingerprint c9e1 = buildFingerprint c9e2 ∧
    (buildFingerprint c9e1).length = 64 ∧
    (buildFingerprint c9e1).data.all (fun c => hexDigits.contains c) = true :=
  ⟨rfl, rfl, rfl, by simp [c9e1, c9e2, wsTokens, isJsWs, jsWsChars, jsToLower],
    c9_fingerprint_normalization c9e1 c9e2 rfl rfl rfl
      (by simp [c9e1, c9e2, wsTokens, isJsWs, jsWsChars, jsToLower])⟩

end NotifEngine
